import Mathlib

/-!
SensorSim: a shallow embedding of `DHTSim.h` and `LightSim.h`.

The two sensor simulators are embedded as pure functions over an arbitrary
linearly ordered field `α` (exact arithmetic: the rounding of C `float` is not
modelled).  What the C++ code takes from its environment is made explicit:

* `millis()`: the clock reading is the argument `now` of the constructors and
  of `update`; `unsigned long` is a `w`-bit word, so `now - lastUpdate` is
  computed modulo `2 ^ w`;
* `random(0, 10000)`: the raw draws are a stream `rnd : Nat → Nat` and every
  function that draws threads a cursor `k` into that stream (it returns the
  cursor after its draws);
* `sin`, `cos`, `log`, `sqrt` and `PI`: a record `Libm α`; `realLibm` is the
  instance given by the real functions.
-/

namespace SensorSim

/-- The C math library functions and the Arduino constant `PI` used by the
simulators. -/
structure Libm (α : Type) where
  sin : α → α
  cos : α → α
  log : α → α
  sqrt : α → α
  PI : α

/-- The math library over the reals. -/
noncomputable def realLibm : Libm ℝ where
  sin := Real.sin
  cos := Real.cos
  log := Real.log
  sqrt := Real.sqrt
  PI := Real.pi

section Utilities

variable {α : Type} [LinearOrderedField α]

/-- The subtraction `now - lastUpdate` of two `unsigned long` values of `w`
bits. -/
def millisDiff (w now lastUpdate : Nat) : Nat :=
  (now % 2 ^ w + 2 ^ w - lastUpdate % 2 ^ w) % 2 ^ w

/-- The source's `randomFloat(a, b)` (the same body in `DHTSim` and `LightSim`):
`a + (b - a) * ((float)random(0, 10000) / 10000.0f)`.  One raw draw is
consumed. -/
def randomFloat (rnd : Nat → Nat) (a b : α) (k : Nat) : α × Nat :=
  (a + (b - a) * ((rnd k : α) / 10000), k + 1)

/-- The source's `gaussianNoise(std)` (the same body in both classes): two
draws `u1`, `u2` from `randomFloat(0.0001f, 1.0f)`, then
`std * sqrt(-2 * log(u1)) * cos(2 * PI * u2)`. -/
def gaussianNoise (m : Libm α) (rnd : Nat → Nat) (std : α) (k : Nat) : α × Nat :=
  let u1 := randomFloat rnd (0.0001 : α) 1 k
  let u2 := randomFloat rnd (0.0001 : α) 1 u1.2
  (std * m.sqrt (-2 * m.log u1.1) * m.cos (2 * m.PI * u2.1), u2.2)

/-- The source's `clamp(x, a, b)`: `(x < a) ? a : (x > b) ? b : x`. -/
def clamp (x a b : α) : α :=
  if x < a then a else if x > b then b else x

/-- The source's `boundedRandomWalkDT(current, minV, maxV, rate, dt)` (the same
body in both classes): one uniform step, then the two sequential `if`s. -/
def boundedRandomWalkDT (rnd : Nat → Nat) (current minV maxV driftPerSec dt : α)
    (k : Nat) : α × Nat :=
  let step := driftPerSec * dt
  let r := randomFloat rnd (-step) step k
  let c1 := current + r.1
  let c2 := if c1 < minV then minV else c1
  let c3 := if c2 > maxV then maxV else c2
  (c3, r.2)

/-- The source's `LightSim::daylightCurve(hour, peakLux)`. -/
def daylightCurve (m : Libm α) (hour peakLux : α) : α :=
  let angle := 2 * m.PI * (hour / 24) - m.PI / 2
  let val := (m.sin angle + 1) * 0.5
  peakLux * val

end Utilities

/-! ## LightSim -/

inductive LightScenario where
  | Manual
  | OutdoorSunny
  | OutdoorCloudy
  | IndoorRoom
  | Greenhouse
  deriving DecidableEq, Repr

/-- The data members of `class LightSim`. -/
structure LightSim (α : Type) where
  scenario : LightScenario
  lux : α
  simulatedHour : α
  lastUpdate : Nat
  luxMin : α
  luxMax : α
  driftPerSec : α
  noiseStd : α
  dailyAmp : α
  dailyPhase : α
  timeScale : α

namespace LightSim

variable {α : Type} [LinearOrderedField α]

/-- The default member initialisers of `class LightSim`, with the scenario and
the construction-time clock reading filled in. -/
def defaults (scenario : LightScenario) (now : Nat) : LightSim α where
  scenario := scenario
  lux := 0
  simulatedHour := 0
  lastUpdate := now
  luxMin := 0
  luxMax := 1000
  driftPerSec := 5
  noiseStd := 1
  dailyAmp := 0
  dailyPhase := 0
  timeScale := 0.02

/-- The source's `configureScenario()`. -/
def configureScenario (s : LightSim α) : LightSim α :=
  match s.scenario with
  | .OutdoorSunny => { s with luxMin := 0, luxMax := 100000, timeScale := 0.02, lux := 2000 }
  | .OutdoorCloudy => { s with luxMin := 0, luxMax := 25000, timeScale := 0.02, lux := 1500 }
  | .IndoorRoom => { s with luxMin := 50, luxMax := 150, timeScale := 0, lux := 90 }
  | .Greenhouse => { s with luxMin := 2000, luxMax := 30000, timeScale := 0.015, lux := 12000 }
  | .Manual => s

/-- The manual constructor `LightSim(luxMin, luxMax, driftPerSec,
noiseStdPerSec, dailyAmp, dailyPhase, timeScale)`; `now` is what `millis()`
returns. -/
def mkManual (rnd : Nat → Nat) (now : Nat)
    (luxMin luxMax driftPerSec noiseStdPerSec dailyAmp dailyPhase timeScale : α)
    (k : Nat) : LightSim α × Nat :=
  let r := randomFloat rnd luxMin luxMax k
  ({ scenario := .Manual, lux := r.1, simulatedHour := 0, lastUpdate := now,
     luxMin := luxMin, luxMax := luxMax, driftPerSec := driftPerSec,
     noiseStd := noiseStdPerSec, dailyAmp := dailyAmp, dailyPhase := dailyPhase,
     timeScale := timeScale }, r.2)

/-- The scenario constructor `LightSim(LightScenario scenario)`. -/
def mkScenario (scenario : LightScenario) (now : Nat) : LightSim α :=
  { configureScenario (defaults scenario now) with lastUpdate := now }

/-- The source's `updateManual(hours, dt)`. -/
def updateManual (m : Libm α) (rnd : Nat → Nat) (hours dt : α) (s : LightSim α)
    (k : Nat) : LightSim α × Nat :=
  let d := randomFloat rnd ((-s.driftPerSec) * dt) (s.driftPerSec * dt) k
  let lux1 := s.lux + d.1
  let g := gaussianNoise m rnd (s.noiseStd * dt) d.2
  let lux2 := lux1 + g.1
  let lux3 :=
    if s.dailyAmp > 0 then
      lux2 + (s.dailyAmp * m.sin (2 * m.PI * (hours / 24 + s.dailyPhase))) * dt
    else lux2
  ({ s with lux := clamp lux3 s.luxMin s.luxMax }, g.2)

/-- The source's `updateOutdoorSunny(hours, dt)`. -/
def updateOutdoorSunny (m : Libm α) (rnd : Nat → Nat) (hours dt : α) (s : LightSim α)
    (k : Nat) : LightSim α × Nat :=
  let peakLux : α := 100000
  let daily := daylightCurve m hours peakLux
  let noise := gaussianNoise m rnd (100 * dt) k
  let lux1 := daily + noise.1
  let lux2 := if lux1 < 0 then 0 else lux1
  let lux3 := if lux2 > peakLux then peakLux else lux2
  ({ s with lux := lux3 }, noise.2)

/-- The source's `updateOutdoorCloudy(hours, dt)`. -/
def updateOutdoorCloudy (m : Libm α) (rnd : Nat → Nat) (hours dt : α) (s : LightSim α)
    (k : Nat) : LightSim α × Nat :=
  let peakLux : α := 25000
  let daily := daylightCurve m hours peakLux
  let cloudFactor := randomFloat rnd (0.4 : α) 0.8 k
  let cloudNoise := gaussianNoise m rnd (200 * dt) cloudFactor.2
  let lux1 := daily * cloudFactor.1 + cloudNoise.1
  let lux2 := if lux1 < 0 then 0 else lux1
  let lux3 := if lux2 > peakLux then peakLux else lux2
  ({ s with lux := lux3 }, cloudNoise.2)

/-- The source's `updateIndoorRoom(dt)`. -/
def updateIndoorRoom (rnd : Nat → Nat) (dt : α) (s : LightSim α) (k : Nat) :
    LightSim α × Nat :=
  let r := boundedRandomWalkDT rnd s.lux s.luxMin s.luxMax 3 dt k
  ({ s with lux := r.1 }, r.2)

/-- The source's `updateGreenhouse(hours, dt)`. -/
def updateGreenhouse (m : Libm α) (rnd : Nat → Nat) (hours dt : α) (s : LightSim α)
    (k : Nat) : LightSim α × Nat :=
  let peakLux : α := 30000
  let daily := daylightCurve m hours peakLux
  let noise := gaussianNoise m rnd (150 * dt) k
  let lux1 := daily + noise.1
  ({ s with lux := clamp lux1 s.luxMin s.luxMax }, noise.2)

/-- The source's `update()`; `now` is what `millis()` returns. -/
def update (m : Libm α) (w : Nat) (rnd : Nat → Nat) (now : Nat) (s : LightSim α)
    (k : Nat) : LightSim α × Nat :=
  let dt : α := (millisDiff w now s.lastUpdate : α) / 1000
  if dt ≤ 0 then (s, k)
  else
    let s1 := { s with lastUpdate := now }
    let h1 := s1.simulatedHour + dt * s1.timeScale
    let h2 := if h1 ≥ 24 then h1 - 24 else h1
    let s2 := { s1 with simulatedHour := h2 }
    match s2.scenario with
    | .OutdoorSunny => updateOutdoorSunny m rnd h2 dt s2 k
    | .OutdoorCloudy => updateOutdoorCloudy m rnd h2 dt s2 k
    | .IndoorRoom => updateIndoorRoom rnd dt s2 k
    | .Greenhouse => updateGreenhouse m rnd h2 dt s2 k
    | .Manual => updateManual m rnd h2 dt s2 k

/-- The source's `read()`. -/
def read (s : LightSim α) : α := s.lux

/-- A constructed sensor driven by a sequence of `update()` calls, one for each
clock reading of `nows`, in order. -/
def run (m : Libm α) (w : Nat) (rnd : Nat → Nat) (nows : List Nat) (p : LightSim α × Nat) :
    LightSim α × Nat :=
  nows.foldl (fun q now => update m w rnd now q.1 q.2) p

/-- The bounds `(luxMin, luxMax)` in force after the scenario constructor: the
ones `configureScenario` assigns, and the default member values `0`, `1000`
when it is called with `Manual` (which `configureScenario` leaves alone). -/
def presetBounds : LightScenario → α × α
  | .OutdoorSunny => (0, 100000)
  | .OutdoorCloudy => (0, 25000)
  | .IndoorRoom => (50, 150)
  | .Greenhouse => (2000, 30000)
  | .Manual => (0, 1000)

/-- The state invariant behind boundedness: the bound fields of a preset
scenario are the preset ones, those of a manual sensor are ordered, and `lux`
lies between them. -/
def Bounded (s : LightSim α) : Prop :=
  (match s.scenario with
    | .Manual => s.luxMin ≤ s.luxMax
    | sc => (s.luxMin, s.luxMax) = presetBounds sc) ∧
  s.luxMin ≤ s.lux ∧ s.lux ≤ s.luxMax

end LightSim

/-! ## DHTSim -/

inductive DHTScenario where
  | Manual
  | IndoorRoom
  | Greenhouse
  | OfficeAC
  deriving DecidableEq, Repr

/-- The data members of `class DHTSim`. -/
structure DHTSim (α : Type) where
  scenario : DHTScenario
  temperature : α
  humidity : α
  simulatedHour : α
  lastUpdate : Nat
  timeScale : α
  tMin : α
  tMax : α
  hMin : α
  hMax : α
  tempStep : α
  humStep : α
  tempNoiseStd : α
  humNoiseStd : α
  tempDailyAmp : α
  humDailyAmp : α
  dailyPhase : α
  maxStep : α
  noiseStd : α

namespace DHTSim

variable {α : Type} [LinearOrderedField α]

/-- The default member initialisers of `class DHTSim`, with the scenario and
the construction-time clock reading filled in. -/
def defaults (scenario : DHTScenario) (now : Nat) : DHTSim α where
  scenario := scenario
  temperature := 25
  humidity := 50
  simulatedHour := 0
  lastUpdate := now
  timeScale := 0.0001
  tMin := 20
  tMax := 30
  hMin := 40
  hMax := 60
  tempStep := 0.05
  humStep := 0.10
  tempNoiseStd := 0.01
  humNoiseStd := 0.02
  tempDailyAmp := 0
  humDailyAmp := 0
  dailyPhase := 0
  maxStep := 0.3
  noiseStd := 0.2

/-- The source's `configureScenario()`: the two seed draws of each preset. -/
def configureScenario (rnd : Nat → Nat) (s : DHTSim α) (k : Nat) : DHTSim α × Nat :=
  match s.scenario with
  | .IndoorRoom =>
    let t := randomFloat rnd (22.4 : α) 23.1 k
    let h := randomFloat rnd (47 : α) 52 t.2
    ({ s with temperature := t.1, humidity := h.1 }, h.2)
  | .Greenhouse =>
    let t := randomFloat rnd (27 : α) 32 k
    let h := randomFloat rnd (75 : α) 95 t.2
    ({ s with temperature := t.1, humidity := h.1 }, h.2)
  | .OfficeAC =>
    let t := randomFloat rnd (21 : α) 24 k
    let h := randomFloat rnd (35 : α) 45 t.2
    ({ s with temperature := t.1, humidity := h.1 }, h.2)
  | .Manual => (s, k)

/-- The manual constructor `DHTSim(tempMin, tempMax, humMin, humMax, ...)`;
`now` is what `millis()` returns. -/
def mkManual (rnd : Nat → Nat) (now : Nat)
    (tempMin tempMax humMin humMax tempStepPerSec humStepPerSec tempNoiseStdPerSec
      humNoiseStdPerSec tempDailyAmp humDailyAmp dailyPhase timeScale : α)
    (k : Nat) : DHTSim α × Nat :=
  let t := randomFloat rnd tempMin tempMax k
  let h := randomFloat rnd humMin humMax t.2
  ({ defaults .Manual now with
     tMin := tempMin, tMax := tempMax, hMin := humMin, hMax := humMax,
     tempStep := tempStepPerSec, humStep := humStepPerSec,
     tempNoiseStd := tempNoiseStdPerSec, humNoiseStd := humNoiseStdPerSec,
     tempDailyAmp := tempDailyAmp, humDailyAmp := humDailyAmp, dailyPhase := dailyPhase,
     timeScale := timeScale, temperature := t.1, humidity := h.1 }, h.2)

/-- The scenario constructor `DHTSim(DHTScenario scenario)`. -/
def mkScenario (rnd : Nat → Nat) (scenario : DHTScenario) (now : Nat) (k : Nat) :
    DHTSim α × Nat :=
  let c := configureScenario rnd (defaults scenario now) k
  ({ c.1 with lastUpdate := now }, c.2)

/-- The source's `updateManual(dt)`; it reads the member `simulatedHour`. -/
def updateManual (m : Libm α) (rnd : Nat → Nat) (dt : α) (s : DHTSim α) (k : Nat) :
    DHTSim α × Nat :=
  let stepT := s.tempStep * dt
  let stepH := s.humStep * dt
  let dT := randomFloat rnd (-stepT) stepT k
  let t1 := s.temperature + dT.1
  let dH := randomFloat rnd (-stepH) stepH dT.2
  let h1 := s.humidity + dH.1
  let gT := gaussianNoise m rnd (s.tempNoiseStd * dt) dH.2
  let t2 := t1 + gT.1
  let gH := gaussianNoise m rnd (s.humNoiseStd * dt) gT.2
  let h2 := h1 + gH.1
  let t3 :=
    if s.tempDailyAmp > 0 then
      t2 + s.tempDailyAmp * m.sin (2 * m.PI * (s.simulatedHour / 24 + s.dailyPhase)) * dt
    else t2
  let h3 :=
    if s.humDailyAmp > 0 then
      h2 + s.humDailyAmp * m.sin (2 * m.PI * (s.simulatedHour / 24 + s.dailyPhase)) * dt
    else h2
  ({ s with temperature := clamp t3 s.tMin s.tMax, humidity := clamp h3 s.hMin s.hMax }, gH.2)

/-- The source's `updateIndoor(hours, dt)`. -/
def updateIndoor (rnd : Nat → Nat) (_hours dt : α) (s : DHTSim α) (k : Nat) :
    DHTSim α × Nat :=
  let tempMin : α := 22.4
  let tempMax : α := 23.1
  let humMin : α := 47
  let humMax : α := 52
  let t := boundedRandomWalkDT rnd s.temperature tempMin tempMax 0.02 dt k
  let h := boundedRandomWalkDT rnd s.humidity humMin humMax 0.05 dt t.2
  ({ s with temperature := t.1, humidity := h.1 }, h.2)

/-- The source's `updateGreenhouse(hours, dt)`. -/
def updateGreenhouse (m : Libm α) (rnd : Nat → Nat) (hours dt : α) (s : DHTSim α)
    (k : Nat) : DHTSim α × Nat :=
  let dayFactor := m.sin (2 * m.PI * (hours / 24))
  let tMin := 27 + 0.4 * dayFactor
  let tMax := 32 + 0.4 * dayFactor
  let hMin := 75 + 1 * dayFactor
  let hMax := 95 + 1 * dayFactor
  let t := boundedRandomWalkDT rnd s.temperature tMin tMax 0.05 dt k
  let h := boundedRandomWalkDT rnd s.humidity hMin hMax 0.10 dt t.2
  ({ s with temperature := t.1, humidity := h.1 }, h.2)

/-- The source's `updateOfficeAC(hours, dt)`. -/
def updateOfficeAC (rnd : Nat → Nat) (hours dt : α) (s : DHTSim α) (k : Nat) :
    DHTSim α × Nat :=
  let acOn : Bool := decide (hours ≥ 9) && decide (hours < 18)
  let tMin : α := if acOn then 21.2 else 22.8
  let tMax : α := if acOn then 22.0 else 23.2
  let hMin : α := if acOn then 37 else 42
  let hMax : α := if acOn then 41 else 47
  let t := boundedRandomWalkDT rnd s.temperature tMin tMax 0.03 dt k
  let h := boundedRandomWalkDT rnd s.humidity hMin hMax 0.08 dt t.2
  ({ s with temperature := t.1, humidity := h.1 }, h.2)

/-- The arguments `(tMin, tMax, rate)` that `updateOfficeAC(hours, dt)` passes to
its temperature walk: the locals `tMin`, `tMax` selected by `acOn`, and the
literal `0.03f`. -/
def officeACTemp (hours : α) : α × α × α :=
  let acOn : Bool := decide (hours ≥ 9) && decide (hours < 18)
  (if acOn then 21.2 else 22.8, if acOn then 22.0 else 23.2, 0.03)

/-- The arguments `(hMin, hMax, rate)` that `updateOfficeAC(hours, dt)` passes to
its humidity walk: the locals `hMin`, `hMax` selected by `acOn`, and the
literal `0.08f`. -/
def officeACHum (hours : α) : α × α × α :=
  let acOn : Bool := decide (hours ≥ 9) && decide (hours < 18)
  (if acOn then 37 else 42, if acOn then 41 else 47, 0.08)

/-- The source's `update()`; `now` is what `millis()` returns. -/
def update (m : Libm α) (w : Nat) (rnd : Nat → Nat) (now : Nat) (s : DHTSim α)
    (k : Nat) : DHTSim α × Nat :=
  let dt : α := (millisDiff w now s.lastUpdate : α) / 1000
  if dt ≤ 0 then (s, k)
  else
    let s1 := { s with lastUpdate := now }
    let h1 := s1.simulatedHour + dt * s1.timeScale
    let h2 := if h1 ≥ 24 then h1 - 24 else h1
    let s2 := { s1 with simulatedHour := h2 }
    match s2.scenario with
    | .IndoorRoom => updateIndoor rnd h2 dt s2 k
    | .Greenhouse => updateGreenhouse m rnd h2 dt s2 k
    | .OfficeAC => updateOfficeAC rnd h2 dt s2 k
    | .Manual => updateManual m rnd dt s2 k

/-- The source's `read()`. -/
def read (s : DHTSim α) : α := s.temperature

/-- The source's `readHumidity()`. -/
def readHumidity (s : DHTSim α) : α := s.humidity

end DHTSim

/-! ## Shared lemmas on the utilities -/

section UtilityLemmas

variable {α : Type} [LinearOrderedField α]

theorem millisDiff_self (w now : Nat) : millisDiff w now now = 0 := by
  unfold millisDiff
  rw [Nat.add_sub_cancel_left, Nat.mod_self]

theorem millisDiff_of_le (w now last : Nat) (hn : now < 2 ^ w) (hl : last ≤ now) :
    millisDiff w now last = now - last := by
  unfold millisDiff
  rw [Nat.mod_eq_of_lt hn, Nat.mod_eq_of_lt (lt_of_le_of_lt hl hn)]
  have : now + 2 ^ w - last = (now - last) + 2 ^ w := by omega
  rw [this, Nat.add_mod_right, Nat.mod_eq_of_lt (by omega)]

theorem millisDiff_of_lt (w now last : Nat) (hl : last < 2 ^ w) (hn : now < last) :
    millisDiff w now last = now + 2 ^ w - last := by
  unfold millisDiff
  rw [Nat.mod_eq_of_lt hl, Nat.mod_eq_of_lt (lt_trans hn hl), Nat.mod_eq_of_lt (by omega)]

theorem randomFloat_mem (rnd : Nat → Nat) (a b : α) (k : Nat) (hab : a ≤ b)
    (hr : rnd k < 10000) :
    a ≤ (randomFloat rnd a b k).1 ∧ (randomFloat rnd a b k).1 ≤ b := by
  have h0 : (0 : α) ≤ (rnd k : α) / 10000 := by positivity
  have h1 : (rnd k : α) / 10000 ≤ 1 := by
    rw [div_le_one (by norm_num)]
    exact_mod_cast hr.le
  have hba : 0 ≤ b - a := sub_nonneg.mpr hab
  simp only [randomFloat]
  constructor
  · nlinarith [mul_nonneg hba h0]
  · nlinarith [mul_le_mul_of_nonneg_left h1 hba]

theorem clamp_mem (x a b : α) (hab : a ≤ b) : a ≤ clamp x a b ∧ clamp x a b ≤ b := by
  unfold clamp
  split_ifs with h1 h2
  · exact ⟨le_refl _, hab⟩
  · exact ⟨hab, le_refl _⟩
  · exact ⟨not_lt.mp h1, not_lt.mp h2⟩

theorem boundedRandomWalkDT_mem (rnd : Nat → Nat) (current minV maxV rate dt : α) (k : Nat)
    (h : minV ≤ maxV) :
    minV ≤ (boundedRandomWalkDT rnd current minV maxV rate dt k).1 ∧
      (boundedRandomWalkDT rnd current minV maxV rate dt k).1 ≤ maxV := by
  simp only [boundedRandomWalkDT]
  split_ifs with h1 h2 h3
  · exact ⟨h, le_refl _⟩
  · exact ⟨le_refl _, not_lt.mp h2⟩
  · exact ⟨h, le_refl _⟩
  · exact ⟨not_lt.mp h1, not_lt.mp h3⟩

end UtilityLemmas

/-! ## LightSim: boundedness -/

namespace LightSim

variable {α : Type} [LinearOrderedField α]

/-- The two sequential `if`s of `updateOutdoorSunny` and `updateOutdoorCloudy`
leave the value between `0` and the peak. -/
theorem floor_ceil_mem (x peak : α) (hp : 0 ≤ peak) :
    0 ≤ (if (if x < 0 then 0 else x) > peak then peak else (if x < 0 then 0 else x)) ∧
      (if (if x < 0 then 0 else x) > peak then peak else (if x < 0 then 0 else x)) ≤ peak := by
  split_ifs with h1 h2 h3
  · exact ⟨hp, le_refl _⟩
  · exact ⟨le_refl _, hp⟩
  · exact ⟨hp, le_refl _⟩
  · exact ⟨not_lt.mp h1, not_lt.mp h3⟩

theorem light_update_of_tie (m : Libm α) (w : Nat) (rnd : Nat → Nat) (now : Nat) (s : LightSim α)
    (k : Nat) (hdt : ((millisDiff w now s.lastUpdate : α) / 1000) ≤ 0) :
    update m w rnd now s k = (s, k) := by
  simp only [update, hdt, ↓reduceIte]

theorem light_update_fields (m : Libm α) (w : Nat) (rnd : Nat → Nat) (now : Nat) (s : LightSim α)
    (k : Nat) :
    (update m w rnd now s k).1.scenario = s.scenario ∧
      (update m w rnd now s k).1.luxMin = s.luxMin ∧
      (update m w rnd now s k).1.luxMax = s.luxMax := by
  by_cases hdt : ((millisDiff w now s.lastUpdate : α) / 1000) ≤ 0
  · rw [light_update_of_tie m w rnd now s k hdt]
    exact ⟨rfl, rfl, rfl⟩
  · obtain ⟨sc, lux, hr, lu, lo, hi, dr, ns, da, dp, ts⟩ := s
    cases sc <;> simp only [update, hdt, ↓reduceIte] <;> exact ⟨rfl, rfl, rfl⟩

theorem light_update_bounded (m : Libm α) (w : Nat) (rnd : Nat → Nat) (now : Nat) (s : LightSim α)
    (k : Nat) (hs : Bounded s) : Bounded (update m w rnd now s k).1 := by
  by_cases hdt : ((millisDiff w now s.lastUpdate : α) / 1000) ≤ 0
  · rw [light_update_of_tie m w rnd now s k hdt]
    exact hs
  · obtain ⟨sc, lux, hr, lu, lo, hi, dr, ns, da, dp, ts⟩ := s
    obtain ⟨hprof, -, -⟩ := hs
    cases sc <;> simp only [update, hdt, ↓reduceIte]
    · exact ⟨hprof, clamp_mem _ _ _ hprof⟩
    · dsimp only [presetBounds] at hprof
      rw [Prod.mk.injEq] at hprof
      obtain ⟨rfl, rfl⟩ := hprof
      exact ⟨rfl, floor_ceil_mem _ _ (by norm_num)⟩
    · dsimp only [presetBounds] at hprof
      rw [Prod.mk.injEq] at hprof
      obtain ⟨rfl, rfl⟩ := hprof
      exact ⟨rfl, floor_ceil_mem _ _ (by norm_num)⟩
    · dsimp only [presetBounds] at hprof
      rw [Prod.mk.injEq] at hprof
      obtain ⟨rfl, rfl⟩ := hprof
      exact ⟨rfl, boundedRandomWalkDT_mem _ _ 50 150 _ _ _ (by norm_num)⟩
    · dsimp only [presetBounds] at hprof
      rw [Prod.mk.injEq] at hprof
      obtain ⟨rfl, rfl⟩ := hprof
      exact ⟨rfl, clamp_mem _ 2000 30000 (by norm_num)⟩

theorem light_run_bounded (m : Libm α) (w : Nat) (rnd : Nat → Nat) (nows : List Nat) :
    ∀ p : LightSim α × Nat, Bounded p.1 →
      Bounded (run m w rnd nows p).1 ∧
        (run m w rnd nows p).1.scenario = p.1.scenario ∧
        (run m w rnd nows p).1.luxMin = p.1.luxMin ∧
        (run m w rnd nows p).1.luxMax = p.1.luxMax := by
  induction nows with
  | nil => intro p hp; exact ⟨hp, rfl, rfl, rfl⟩
  | cons now rest ih =>
    intro p hp
    have h1 := light_update_bounded m w rnd now p.1 p.2 hp
    obtain ⟨h2, h3, h4⟩ := light_update_fields m w rnd now p.1 p.2
    obtain ⟨g1, g2, g3, g4⟩ := ih (update m w rnd now p.1 p.2) h1
    simp only [run, List.foldl_cons] at g1 g2 g3 g4 ⊢
    exact ⟨g1, g2.trans h2, g3.trans h3, g4.trans h4⟩

theorem light_mkScenario_bounded (sc : LightScenario) (now : Nat) :
    Bounded (mkScenario sc now : LightSim α) ∧
      ((mkScenario sc now : LightSim α).luxMin, (mkScenario sc now : LightSim α).luxMax)
        = presetBounds sc := by
  cases sc <;>
    simp [mkScenario, configureScenario, defaults, Bounded, presetBounds] <;> norm_num

theorem light_mkManual_bounded (rnd : Nat → Nat) (now : Nat)
    (luxMin luxMax driftPerSec noiseStdPerSec dailyAmp dailyPhase timeScale : α) (k : Nat)
    (hrnd : rnd k < 10000) (h : luxMin ≤ luxMax) :
    Bounded (mkManual rnd now luxMin luxMax driftPerSec noiseStdPerSec dailyAmp dailyPhase
      timeScale k).1 := by
  simp only [mkManual, Bounded]
  exact ⟨h, randomFloat_mem rnd luxMin luxMax k h hrnd⟩

/-- C1 (LightSim boundedness).  Whatever raw draws in `0..9999` the random
source gives and whatever clock readings the `update()` calls see, the lux of
a sensor built by the scenario constructor stays within the bounds of its
profile (`0..100000`, `0..25000`, `50..150`, `2000..30000`), and the lux of a
sensor built by the manual constructor with `luxMin ≤ luxMax` stays within
`luxMin..luxMax`; with `nows = []` this is the value the constructor
produces. -/
theorem lightSim_boundedness (m : Libm α) (w : Nat) (rnd : Nat → Nat) (hrnd : ∀ i, rnd i < 10000)
    (nows : List Nat) (now0 k : Nat) :
    (∀ sc : LightScenario,
      (presetBounds sc : α × α).1 ≤ read (run m w rnd nows (mkScenario sc now0, k)).1 ∧
        read (run m w rnd nows (mkScenario sc now0, k)).1 ≤ (presetBounds sc : α × α).2) ∧
    (∀ luxMin luxMax driftPerSec noiseStdPerSec dailyAmp dailyPhase timeScale : α,
      luxMin ≤ luxMax →
        luxMin ≤ read (run m w rnd nows (mkManual rnd now0 luxMin luxMax driftPerSec
          noiseStdPerSec dailyAmp dailyPhase timeScale k)).1 ∧
        read (run m w rnd nows (mkManual rnd now0 luxMin luxMax driftPerSec
          noiseStdPerSec dailyAmp dailyPhase timeScale k)).1 ≤ luxMax) := by
  constructor
  · intro sc
    obtain ⟨hb, hpre⟩ := light_mkScenario_bounded (α := α) sc now0
    obtain ⟨⟨_, hlo, hhi⟩, _, h3, h4⟩ := light_run_bounded m w rnd nows (mkScenario sc now0, k) hb
    simp only [Prod.ext_iff] at hpre
    simp only [read]
    rw [← hpre.1, ← hpre.2]
    rw [h3] at hlo
    rw [h4] at hhi
    exact ⟨hlo, hhi⟩
  · intro luxMin luxMax driftPerSec noiseStdPerSec dailyAmp dailyPhase timeScale h
    have hb := light_mkManual_bounded rnd now0 luxMin luxMax driftPerSec noiseStdPerSec dailyAmp
      dailyPhase timeScale k (hrnd k) h
    obtain ⟨⟨_, hlo, hhi⟩, _, h3, h4⟩ := light_run_bounded m w rnd nows _ hb
    simp only [read]
    have e3 : (mkManual rnd now0 luxMin luxMax driftPerSec noiseStdPerSec dailyAmp dailyPhase
      timeScale k).1.luxMin = luxMin := rfl
    have e4 : (mkManual rnd now0 luxMin luxMax driftPerSec noiseStdPerSec dailyAmp dailyPhase
      timeScale k).1.luxMax = luxMax := rfl
    rw [e3] at h3
    rw [e4] at h4
    rw [h3] at hlo
    rw [h4] at hhi
    exact ⟨hlo, hhi⟩

theorem lightSim_boundedness_witness :
    (∀ i, (fun _ : Nat => 5000) i < 10000) ∧
      (0 : ℝ) ≤ read (run realLibm 32 (fun _ => 5000) [1000, 2500]
        (mkScenario .OutdoorSunny 0, 0)).1 ∧
      read (run realLibm 32 (fun _ => 5000) [1000, 2500]
        (mkScenario .OutdoorSunny 0, 0)).1 ≤ (100000 : ℝ) :=
  ⟨fun _ => by norm_num,
    (lightSim_boundedness realLibm 32 (fun _ => 5000) (fun _ => by norm_num) [1000, 2500] 0 0).1
      .OutdoorSunny⟩

end LightSim

/-! ## DHTSim: boundedness -/

namespace DHTSim

variable {α : Type} [LinearOrderedField α]

theorem dht_update_of_tie (m : Libm α) (w : Nat) (rnd : Nat → Nat) (now : Nat) (s : DHTSim α)
    (k : Nat) (hdt : ((millisDiff w now s.lastUpdate : α) / 1000) ≤ 0) :
    update m w rnd now s k = (s, k) := by
  simp only [update, hdt, ↓reduceIte]

theorem dt_pos (w now last : Nat) (h : 0 < millisDiff w now last) :
    ¬ ((millisDiff w now last : α) / 1000) ≤ 0 := by
  have : (0 : α) < (millisDiff w now last : α) := by exact_mod_cast h
  have : (0 : α) < (millisDiff w now last : α) / 1000 := by positivity
  exact not_le.mpr this

theorem updateOfficeAC_on (rnd : Nat → Nat) (hours dt : α) (s : DHTSim α) (k : Nat)
    (h : 9 ≤ hours ∧ hours < 18) :
    updateOfficeAC rnd hours dt s k =
      ({ s with
          temperature := (boundedRandomWalkDT rnd s.temperature 21.2 22.0 0.03 dt k).1,
          humidity := (boundedRandomWalkDT rnd s.humidity 37 41 0.08 dt (k + 1)).1 },
        k + 2) := by
  simp [updateOfficeAC, h.1, h.2, boundedRandomWalkDT, randomFloat]

theorem updateOfficeAC_off (rnd : Nat → Nat) (hours dt : α) (s : DHTSim α) (k : Nat)
    (h : ¬ (9 ≤ hours ∧ hours < 18)) :
    updateOfficeAC rnd hours dt s k =
      ({ s with
          temperature := (boundedRandomWalkDT rnd s.temperature 22.8 23.2 0.03 dt k).1,
          humidity := (boundedRandomWalkDT rnd s.humidity 42 47 0.08 dt (k + 1)).1 },
        k + 2) := by
  have h' : (decide (hours ≥ 9) && decide (hours < 18)) = false := by
    simpa [not_and] using h
  simp [updateOfficeAC, h', boundedRandomWalkDT, randomFloat]

/-- C2 (DHTSim boundedness).  From any prior state, for any clock reading with
a positive elapsed time and any random draws, after `update()` the temperature
and the humidity lie within the bounds of the tick: the IndoorRoom constants;
the Greenhouse bounds shifted by the sine of the post-advance hour; the OfficeAC
bounds selected by the post-advance hour; the manual bounds when they are
ordered. -/
theorem dhtSim_boundedness (m : Libm α) (w : Nat) (rnd : Nat → Nat) (now : Nat)
    (s : DHTSim α) (k : Nat) (hdt : 0 < millisDiff w now s.lastUpdate) :
    (s.scenario = .IndoorRoom →
      22.4 ≤ read (update m w rnd now s k).1 ∧ read (update m w rnd now s k).1 ≤ 23.1 ∧
      47 ≤ readHumidity (update m w rnd now s k).1 ∧
      readHumidity (update m w rnd now s k).1 ≤ 52) ∧
    (s.scenario = .Greenhouse →
      27 + 0.4 * m.sin (2 * m.PI * ((update m w rnd now s k).1.simulatedHour / 24))
        ≤ read (update m w rnd now s k).1 ∧
      read (update m w rnd now s k).1
        ≤ 32 + 0.4 * m.sin (2 * m.PI * ((update m w rnd now s k).1.simulatedHour / 24)) ∧
      75 + m.sin (2 * m.PI * ((update m w rnd now s k).1.simulatedHour / 24))
        ≤ readHumidity (update m w rnd now s k).1 ∧
      readHumidity (update m w rnd now s k).1
        ≤ 95 + m.sin (2 * m.PI * ((update m w rnd now s k).1.simulatedHour / 24))) ∧
    (s.scenario = .OfficeAC →
      ((9 ≤ (update m w rnd now s k).1.simulatedHour ∧
          (update m w rnd now s k).1.simulatedHour < 18) →
        21.2 ≤ read (update m w rnd now s k).1 ∧ read (update m w rnd now s k).1 ≤ 22.0 ∧
        37 ≤ readHumidity (update m w rnd now s k).1 ∧
        readHumidity (update m w rnd now s k).1 ≤ 41) ∧
      (¬ (9 ≤ (update m w rnd now s k).1.simulatedHour ∧
          (update m w rnd now s k).1.simulatedHour < 18) →
        22.8 ≤ read (update m w rnd now s k).1 ∧ read (update m w rnd now s k).1 ≤ 23.2 ∧
        42 ≤ readHumidity (update m w rnd now s k).1 ∧
        readHumidity (update m w rnd now s k).1 ≤ 47)) ∧
    (s.scenario = .Manual → s.tMin ≤ s.tMax → s.hMin ≤ s.hMax →
      s.tMin ≤ read (update m w rnd now s k).1 ∧ read (update m w rnd now s k).1 ≤ s.tMax ∧
      s.hMin ≤ readHumidity (update m w rnd now s k).1 ∧
      readHumidity (update m w rnd now s k).1 ≤ s.hMax) := by
  have hpos := dt_pos (α := α) w now s.lastUpdate hdt
  obtain ⟨sc, t, h, hr, lu, ts, tMin, tMax, hMin, hMax, tS, hS, tN, hN, tA, hA, dp, ms, ns⟩ := s
  refine ⟨?_, ?_, ?_, ?_⟩
  · rintro rfl
    simp only [update, hpos, ↓reduceIte, read, readHumidity]
    have h1 := boundedRandomWalkDT_mem rnd t (22.4 : α) 23.1 0.02
      ((millisDiff w now lu : α) / 1000) k (by norm_num)
    have h2 := boundedRandomWalkDT_mem rnd h (47 : α) 52 0.05
      ((millisDiff w now lu : α) / 1000) (k + 1) (by norm_num)
    exact ⟨h1.1, h1.2, h2.1, h2.2⟩
  · rintro rfl
    simp only [update, hpos, ↓reduceIte, read, readHumidity]
    generalize (if 24 ≤ hr + (millisDiff w now lu : α) / 1000 * ts
      then hr + (millisDiff w now lu : α) / 1000 * ts - 24
      else hr + (millisDiff w now lu : α) / 1000 * ts) = H
    simp only [updateGreenhouse, one_mul]
    generalize m.sin (2 * m.PI * (H / 24)) = sn
    have h1 := boundedRandomWalkDT_mem rnd t (27 + 0.4 * sn) (32 + 0.4 * sn) 0.05
      ((millisDiff w now lu : α) / 1000) k (by linarith)
    have h2 := boundedRandomWalkDT_mem rnd h (75 + sn) (95 + sn) 0.10
      ((millisDiff w now lu : α) / 1000) (k + 1) (by linarith)
    exact ⟨h1.1, h1.2, h2.1, h2.2⟩
  · rintro rfl
    simp only [update, hpos, ↓reduceIte, read, readHumidity]
    generalize (if 24 ≤ hr + (millisDiff w now lu : α) / 1000 * ts
      then hr + (millisDiff w now lu : α) / 1000 * ts - 24
      else hr + (millisDiff w now lu : α) / 1000 * ts) = H
    constructor
    · intro hon
      have hon' : 9 ≤ H ∧ H < 18 := hon
      rw [updateOfficeAC_on rnd H _ _ k hon']
      have h1 := boundedRandomWalkDT_mem rnd t (21.2 : α) 22.0 0.03
        ((millisDiff w now lu : α) / 1000) k (by norm_num)
      have h2 := boundedRandomWalkDT_mem rnd h (37 : α) 41 0.08
        ((millisDiff w now lu : α) / 1000) (k + 1) (by norm_num)
      exact ⟨h1.1, h1.2, h2.1, h2.2⟩
    · intro hoff
      have hoff' : ¬ (9 ≤ H ∧ H < 18) := hoff
      rw [updateOfficeAC_off rnd H _ _ k hoff']
      have h1 := boundedRandomWalkDT_mem rnd t (22.8 : α) 23.2 0.03
        ((millisDiff w now lu : α) / 1000) k (by norm_num)
      have h2 := boundedRandomWalkDT_mem rnd h (42 : α) 47 0.08
        ((millisDiff w now lu : α) / 1000) (k + 1) (by norm_num)
      exact ⟨h1.1, h1.2, h2.1, h2.2⟩
  · rintro rfl ht hh
    simp only [update, hpos, ↓reduceIte, read, readHumidity]
    exact ⟨(clamp_mem _ _ _ ht).1, (clamp_mem _ _ _ ht).2, (clamp_mem _ _ _ hh).1,
      (clamp_mem _ _ _ hh).2⟩

theorem dhtSim_boundedness_witness :
    0 < millisDiff 32 1000 (defaults .IndoorRoom 0 : DHTSim ℝ).lastUpdate ∧
      (22.4 : ℝ) ≤ read (update realLibm 32 (fun _ => 5000) 1000 (defaults .IndoorRoom 0) 0).1 ∧
      read (update realLibm 32 (fun _ => 5000) 1000 (defaults .IndoorRoom 0) 0).1 ≤ (23.1 : ℝ) :=
  ⟨by decide,
    ((dhtSim_boundedness realLibm 32 (fun _ => 5000) 1000 (defaults .IndoorRoom 0) 0
      (by decide)).1 rfl).1,
    ((dhtSim_boundedness realLibm 32 (fun _ => 5000) 1000 (defaults .IndoorRoom 0) 0
      (by decide)).1 rfl).2.1⟩

end DHTSim

/-! ## Clock ties and non-monotonic clock readings -/

section Clock

variable {α : Type} [LinearOrderedField α]

theorem dt_tie (w now : Nat) : ((millisDiff w now now : α) / 1000) ≤ 0 := by
  rw [millisDiff_self]
  simp

theorem light_update_lastUpdate (m : Libm α) (w : Nat) (rnd : Nat → Nat) (now : Nat)
    (s : LightSim α) (k : Nat) (hdt : ¬ ((millisDiff w now s.lastUpdate : α) / 1000) ≤ 0) :
    (LightSim.update m w rnd now s k).1.lastUpdate = now := by
  obtain ⟨sc, lux, hr, lu, lo, hi, dr, ns, da, dp, ts⟩ := s
  cases sc <;> simp only [LightSim.update, hdt, ↓reduceIte] <;> rfl

theorem dht_update_lastUpdate (m : Libm α) (w : Nat) (rnd : Nat → Nat) (now : Nat)
    (s : DHTSim α) (k : Nat) (hdt : ¬ ((millisDiff w now s.lastUpdate : α) / 1000) ≤ 0) :
    (DHTSim.update m w rnd now s k).1.lastUpdate = now := by
  obtain ⟨sc, t, h, hr, lu, ts, tMin, tMax, hMin, hMax, tS, hS, tN, hN, tA, hA, dp, ms, ns⟩ := s
  cases sc <;> simp only [DHTSim.update, hdt, ↓reduceIte] <;> rfl

/-- C3 (idempotence on a clock tie).  An `update()` whose clock reading equals
`lastUpdate` returns the state and the random cursor unchanged (so value(s),
`simulatedHour` and `lastUpdate` are unchanged and no draw is consumed), for
`DHTSim` and for `LightSim`; and two `update()` calls with the same clock
reading give the same state and cursor as one. -/
theorem update_clock_tie (m : Libm α) (w : Nat) (rnd : Nat → Nat) (k : Nat) :
    (∀ s : DHTSim α, DHTSim.update m w rnd s.lastUpdate s k = (s, k)) ∧
    (∀ s : LightSim α, LightSim.update m w rnd s.lastUpdate s k = (s, k)) ∧
    (∀ (s : DHTSim α) (now : Nat),
      DHTSim.update m w rnd now (DHTSim.update m w rnd now s k).1
          (DHTSim.update m w rnd now s k).2 = DHTSim.update m w rnd now s k) ∧
    (∀ (s : LightSim α) (now : Nat),
      LightSim.update m w rnd now (LightSim.update m w rnd now s k).1
          (LightSim.update m w rnd now s k).2 = LightSim.update m w rnd now s k) := by
  refine ⟨?_, ?_, ?_, ?_⟩
  · intro s
    exact DHTSim.dht_update_of_tie m w rnd _ s k (dt_tie w _)
  · intro s
    exact LightSim.light_update_of_tie m w rnd _ s k (dt_tie w _)
  · intro s now
    by_cases hdt : ((millisDiff w now s.lastUpdate : α) / 1000) ≤ 0
    · rw [DHTSim.dht_update_of_tie m w rnd now s k hdt]
      exact DHTSim.dht_update_of_tie m w rnd now s k hdt
    · apply DHTSim.dht_update_of_tie
      rw [dht_update_lastUpdate m w rnd now s k hdt]
      exact dt_tie w now
  · intro s now
    by_cases hdt : ((millisDiff w now s.lastUpdate : α) / 1000) ≤ 0
    · rw [LightSim.light_update_of_tie m w rnd now s k hdt]
      exact LightSim.light_update_of_tie m w rnd now s k hdt
    · apply LightSim.light_update_of_tie
      rw [light_update_lastUpdate m w rnd now s k hdt]
      exact dt_tie w now

/-- C4, refuted as stated: a `LightSim` last updated at clock reading `1000`
and updated at the earlier reading `999` (32-bit clock) is mutated: its
`lastUpdate` becomes `999`. -/
theorem nonmonotonic_clock_not_absorbed :
    999 < (LightSim.mkScenario .IndoorRoom 1000 : LightSim ℝ).lastUpdate ∧
      (LightSim.update realLibm 32 (fun _ => 0) 999
        (LightSim.mkScenario .IndoorRoom 1000) 0).1.lastUpdate = 999 ∧
      (LightSim.update realLibm 32 (fun _ => 0) 999
        (LightSim.mkScenario .IndoorRoom 1000) 0).1.lastUpdate ≠
        (LightSim.mkScenario .IndoorRoom 1000 : LightSim ℝ).lastUpdate := by
  have h := light_update_lastUpdate realLibm 32 (fun _ => 0) 999
    (LightSim.mkScenario .IndoorRoom 1000) 0 (DHTSim.dt_pos 32 999 1000 (by decide))
  refine ⟨by decide, h, ?_⟩
  rw [h]
  decide

/-- C4, amended.  For `w`-bit clock words, a reading `now` strictly earlier than
`lastUpdate` gives `now - lastUpdate = now + 2 ^ w - lastUpdate`, which is
positive; so `update()` does not return early: it runs a tick with that elapsed
time and stores `now` in `lastUpdate`, which changes the state, for `DHTSim`
and for `LightSim`. -/
theorem nonmonotonic_clock_read (m : Libm α) (w : Nat) (rnd : Nat → Nat) (now last k : Nat)
    (hl : last < 2 ^ w) (hn : now < last) :
    millisDiff w now last = now + 2 ^ w - last ∧ 0 < millisDiff w now last ∧
    (∀ s : DHTSim α, s.lastUpdate = last →
      (DHTSim.update m w rnd now s k).1.lastUpdate = now ∧
        (DHTSim.update m w rnd now s k).1 ≠ s) ∧
    (∀ s : LightSim α, s.lastUpdate = last →
      (LightSim.update m w rnd now s k).1.lastUpdate = now ∧
        (LightSim.update m w rnd now s k).1 ≠ s) := by
  have e := millisDiff_of_lt w now last hl hn
  have hpos : 0 < millisDiff w now last := by rw [e]; omega
  refine ⟨e, hpos, ?_, ?_⟩
  · intro s hs
    subst hs
    have h := dht_update_lastUpdate m w rnd now s k (DHTSim.dt_pos w now _ hpos)
    refine ⟨h, fun hc => ?_⟩
    rw [hc] at h
    omega
  · intro s hs
    subst hs
    have h := light_update_lastUpdate m w rnd now s k (DHTSim.dt_pos w now _ hpos)
    refine ⟨h, fun hc => ?_⟩
    rw [hc] at h
    omega

theorem nonmonotonic_clock_read_witness :
    (1000 : Nat) < 2 ^ 32 ∧ (999 : Nat) < 1000 ∧ millisDiff 32 999 1000 = 999 + 2 ^ 32 - 1000 ∧
      (DHTSim.update realLibm 32 (fun _ => 0) 999 (DHTSim.defaults .OfficeAC 1000) 0).1.lastUpdate
        = 999 :=
  ⟨by decide, by decide,
    (nonmonotonic_clock_read realLibm 32 (fun _ => 0) 999 1000 0 (by decide) (by decide)).1,
    ((nonmonotonic_clock_read realLibm 32 (fun _ => 0) 999 1000 0 (by decide)
      (by decide)).2.2.1 (DHTSim.defaults .OfficeAC 1000) rfl).1⟩

/-! ## The simulated hour -/

theorem light_update_simulatedHour (m : Libm α) (w : Nat) (rnd : Nat → Nat) (now : Nat)
    (s : LightSim α) (k : Nat) (hdt : ¬ ((millisDiff w now s.lastUpdate : α) / 1000) ≤ 0) :
    (LightSim.update m w rnd now s k).1.simulatedHour =
      if s.simulatedHour + (millisDiff w now s.lastUpdate : α) / 1000 * s.timeScale ≥ 24
      then s.simulatedHour + (millisDiff w now s.lastUpdate : α) / 1000 * s.timeScale - 24
      else s.simulatedHour + (millisDiff w now s.lastUpdate : α) / 1000 * s.timeScale := by
  obtain ⟨sc, lux, hr, lu, lo, hi, dr, ns, da, dp, ts⟩ := s
  cases sc <;> simp only [LightSim.update, hdt, ↓reduceIte] <;> rfl

theorem dht_update_simulatedHour (m : Libm α) (w : Nat) (rnd : Nat → Nat) (now : Nat)
    (s : DHTSim α) (k : Nat) (hdt : ¬ ((millisDiff w now s.lastUpdate : α) / 1000) ≤ 0) :
    (DHTSim.update m w rnd now s k).1.simulatedHour =
      if s.simulatedHour + (millisDiff w now s.lastUpdate : α) / 1000 * s.timeScale ≥ 24
      then s.simulatedHour + (millisDiff w now s.lastUpdate : α) / 1000 * s.timeScale - 24
      else s.simulatedHour + (millisDiff w now s.lastUpdate : α) / 1000 * s.timeScale := by
  obtain ⟨sc, t, h, hr, lu, ts, tMin, tMax, hMin, hMax, tS, hS, tN, hN, tA, hA, dp, ms, ns⟩ := s
  cases sc <;> simp only [DHTSim.update, hdt, ↓reduceIte] <;> rfl

/-- C5, the code at the failing inputs: an OutdoorSunny `LightSim` built at
clock reading `0` and updated once at `3600000` ms (one hour later, `72`
simulated hours) ends with `simulatedHour = 48`; a `DHTSim` built at `0` and
updated once at `600000000` ms (`60` simulated hours) ends with
`simulatedHour = 36`.  Both are outside `[0, 24)`. -/
theorem simulatedHour_leaves_day :
    (LightSim.update realLibm 32 (fun _ => 0) 3600000
      (LightSim.mkScenario .OutdoorSunny 0) 0).1.simulatedHour = 48 ∧
    (DHTSim.update realLibm 32 (fun _ => 0) 600000000
      (DHTSim.mkScenario (fun _ => 0) .IndoorRoom 0 0).1 2).1.simulatedHour = 36 := by
  constructor
  · rw [light_update_simulatedHour _ _ _ _ _ _ (DHTSim.dt_pos 32 3600000 0 (by decide))]
    have e : millisDiff 32 3600000 0 = 3600000 := by decide
    simp only [LightSim.mkScenario, LightSim.configureScenario, LightSim.defaults, e]
    norm_num
  · rw [dht_update_simulatedHour _ _ _ _ _ _ (DHTSim.dt_pos 32 600000000 0 (by decide))]
    have e : millisDiff 32 600000000 0 = 600000000 := by decide
    simp only [DHTSim.mkScenario, DHTSim.configureScenario, DHTSim.defaults, e]
    norm_num

end Clock

/-! ## Degenerate configuration -/

section Degenerate

variable {α : Type} [LinearOrderedField α]

theorem clamp_of_gt (x a b : α) (h : b < a) : clamp x a b = if x < a then a else b := by
  unfold clamp
  split_ifs with h1 h2
  · rfl
  · rfl
  · exact absurd (lt_of_lt_of_le h (not_lt.mp h1)) h2

/-- C6, refuted as stated: with `minV = 10 > maxV = 5` the bounded random walk
from `0` returns `5`, which is `maxV` and not `minV`; `clamp(12, 10, 5)` is `5`;
and a manual `LightSim` built with `luxMin = 10 > luxMax = 5` (no drift, no
noise) reads `5` after an update one second later. -/
theorem degenerate_bounds_not_min :
    (boundedRandomWalkDT (fun _ => 0) (0 : ℝ) 10 5 1 1 0).1 = 5 ∧
    clamp (12 : ℝ) 10 5 = 5 ∧
    LightSim.read (LightSim.update realLibm 32 (fun _ => 0) 1000
      (LightSim.mkManual (fun _ => 0) 0 (10 : ℝ) 5 0 0 0 0 0.02 0).1 1).1 = 5 := by
  refine ⟨?_, ?_, ?_⟩
  · norm_num [boundedRandomWalkDT, randomFloat]
  · norm_num [clamp]
  · have e : millisDiff 32 1000 0 = 1000 := by decide
    simp only [LightSim.read, LightSim.update, LightSim.mkManual, LightSim.updateManual,
      randomFloat, gaussianNoise, clamp, e]
    norm_num

/-- C6, amended.  With `min > max`, `clamp(x, min, max)` is `min` when
`x < min` and `max` otherwise, and `boundedRandomWalkDT` always returns `maxV`.
So a manual sensor built with `min > max` holds, after every update with
`dt > 0`, one of the two bounds (`luxMin` or `luxMax`; `tMin` or `tMax`; `hMin`
or `hMax`), not always `min`. -/
theorem degenerate_bounds (m : Libm α) (w : Nat) (rnd : Nat → Nat) (now k : Nat) :
    (∀ x a b : α, b < a → clamp x a b = if x < a then a else b) ∧
    (∀ current minV maxV rate dt : α, maxV < minV →
      (boundedRandomWalkDT rnd current minV maxV rate dt k).1 = maxV) ∧
    (∀ s : LightSim α, s.scenario = .Manual → s.luxMax < s.luxMin →
      0 < millisDiff w now s.lastUpdate →
      LightSim.read (LightSim.update m w rnd now s k).1 = s.luxMin ∨
        LightSim.read (LightSim.update m w rnd now s k).1 = s.luxMax) ∧
    (∀ s : DHTSim α, s.scenario = .Manual → 0 < millisDiff w now s.lastUpdate →
      (s.tMax < s.tMin →
        DHTSim.read (DHTSim.update m w rnd now s k).1 = s.tMin ∨
          DHTSim.read (DHTSim.update m w rnd now s k).1 = s.tMax) ∧
      (s.hMax < s.hMin →
        DHTSim.readHumidity (DHTSim.update m w rnd now s k).1 = s.hMin ∨
          DHTSim.readHumidity (DHTSim.update m w rnd now s k).1 = s.hMax)) := by
  have hc : ∀ x a b : α, b < a → clamp x a b = a ∨ clamp x a b = b := by
    intro x a b h
    rw [clamp_of_gt x a b h]
    split_ifs
    · exact Or.inl rfl
    · exact Or.inr rfl
  refine ⟨clamp_of_gt, ?_, ?_, ?_⟩
  · intro current minV maxV rate dt h
    simp only [boundedRandomWalkDT]
    split_ifs with h1 h2
    · rfl
    · rfl
    · exact absurd (lt_of_lt_of_le h (not_lt.mp h1)) h2
  · intro s hsc hlt hdt
    have hpos := DHTSim.dt_pos (α := α) w now s.lastUpdate hdt
    obtain ⟨sc, lux, hr, lu, lo, hi, dr, ns, da, dp, ts⟩ := s
    subst hsc
    simp only [LightSim.update, hpos, ↓reduceIte, LightSim.read]
    exact hc _ _ _ hlt
  · intro s hsc hdt
    have hpos := DHTSim.dt_pos (α := α) w now s.lastUpdate hdt
    obtain ⟨sc, t, h, hr, lu, ts, tMin, tMax, hMin, hMax, tS, hS, tN, hN, tA, hA, dp, ms, ns⟩ := s
    subst hsc
    simp only [DHTSim.update, hpos, ↓reduceIte, DHTSim.read, DHTSim.readHumidity]
    exact ⟨fun ht => hc _ _ _ ht, fun hh => hc _ _ _ hh⟩

theorem degenerate_bounds_witness :
    (5 : ℝ) < 10 ∧ (boundedRandomWalkDT (fun _ => 0) (0 : ℝ) 10 5 1 1 0).1 = 5 :=
  ⟨by norm_num,
    (degenerate_bounds realLibm 32 (fun _ => 0) 0 0).2.1 0 10 5 1 1 (by norm_num)⟩

/-- C7, refuted as stated: over the reals, with both raw draws `0` (so
`u1 = u2 = 0.0001`), `gaussianNoise(-1)` is not `0`. -/
theorem gaussianNoise_negative_std_nonzero :
    (-1 : ℝ) ≤ 0 ∧ (gaussianNoise realLibm (fun _ => 0) (-1 : ℝ) 0).1 ≠ 0 := by
  refine ⟨by norm_num, ?_⟩
  have hu : ∀ k, (randomFloat (fun _ => 0) (0.0001 : ℝ) 1 k).1 = 0.0001 := by
    intro k
    simp [randomFloat]
  have hlog : Real.log (0.0001 : ℝ) < 0 := Real.log_neg (by norm_num) (by norm_num)
  have hsqrt : Real.sqrt (-2 * Real.log (0.0001 : ℝ)) ≠ 0 :=
    (Real.sqrt_pos.mpr (by linarith)).ne'
  have hcos : Real.cos (2 * Real.pi * (0.0001 : ℝ)) ≠ 0 := by
    have hpi := Real.pi_pos
    exact (Real.cos_pos_of_mem_Ioo ⟨by linarith, by linarith⟩).ne'
  show (-1 : ℝ) * Real.sqrt (-2 * Real.log (randomFloat (fun _ => 0) (0.0001 : ℝ) 1 0).1) *
    Real.cos (2 * Real.pi * (randomFloat (fun _ => 0) (0.0001 : ℝ) 1 _).1) ≠ 0
  rw [hu, hu]
  exact mul_ne_zero (mul_ne_zero (by norm_num) hsqrt) hcos

/-- C7, amended.  For `std = 0` and every outcome of the two uniform draws,
`gaussianNoise(std)` returns exactly `0`.  There is no guard on `std`: for every
`std`, negative ones included, the result is `std` times the sample for
`std = 1`. -/
theorem gaussianNoise_zero_std (m : Libm α) (rnd : Nat → Nat) (k : Nat) :
    (gaussianNoise m rnd 0 k).1 = 0 ∧
    (∀ std : α, (gaussianNoise m rnd std k).1 = std * (gaussianNoise m rnd 1 k).1) := by
  constructor
  · simp [gaussianNoise]
  · intro std
    simp only [gaussianNoise]
    ring

end Degenerate

/-! ## The daylight curve, the OfficeAC boundary and the scenario seeds -/

section Scenarios

variable {α : Type} [LinearOrderedField α]

/-- C8 (daylight curve).  Over the reals, for every peak `P ≥ 0` and every hour
`h`, `0 ≤ daylightCurve(h, P) ≤ P`; the curve is `0` at midnight, `P` at noon,
and takes the same value at hour `24` as at hour `0`. -/
theorem daylightCurve_range (P h : ℝ) (hP : 0 ≤ P) :
    0 ≤ daylightCurve realLibm h P ∧ daylightCurve realLibm h P ≤ P ∧
    daylightCurve realLibm 0 P = 0 ∧ daylightCurve realLibm 12 P = P ∧
    daylightCurve realLibm 24 P = daylightCurve realLibm 0 P := by
  have h0 : daylightCurve realLibm 0 P = 0 := by
    simp [daylightCurve, realLibm]
  have h12 : daylightCurve realLibm 12 P = P := by
    have e : 2 * Real.pi * ((12 : ℝ) / 24) - Real.pi / 2 = Real.pi / 2 := by ring
    simp only [daylightCurve, realLibm, e, Real.sin_pi_div_two]
    norm_num
  have h24 : daylightCurve realLibm 24 P = 0 := by
    have e : 2 * Real.pi * ((24 : ℝ) / 24) - Real.pi / 2 = 2 * Real.pi - Real.pi / 2 := by ring
    simp only [daylightCurve, realLibm, e, Real.sin_two_pi_sub, Real.sin_pi_div_two]
    norm_num
  have hlo := Real.neg_one_le_sin (2 * Real.pi * (h / 24) - Real.pi / 2)
  have hhi := Real.sin_le_one (2 * Real.pi * (h / 24) - Real.pi / 2)
  refine ⟨?_, ?_, h0, h12, h24.trans h0.symm⟩
  · simp only [daylightCurve, realLibm]
    exact mul_nonneg hP (by linarith)
  · simp only [daylightCurve, realLibm]
    nlinarith

theorem daylightCurve_range_witness :
    (0 : ℝ) ≤ 1000 ∧ 0 ≤ daylightCurve realLibm 6 1000 ∧ daylightCurve realLibm 6 1000 ≤ 1000 ∧
      daylightCurve realLibm 12 1000 = 1000 :=
  ⟨by norm_num, (daylightCurve_range 1000 6 (by norm_num)).1,
    (daylightCurve_range 1000 6 (by norm_num)).2.1,
    (daylightCurve_range 1000 6 (by norm_num)).2.2.2.1⟩

/-- C9 (OfficeAC boundary).  `updateOfficeAC(hours, dt)` walks with the AC-on
bounds (temperature `21.2..22.0`, humidity `37..41`) when `9 ≤ hours < 18` and
with the AC-off bounds (temperature `22.8..23.2`, humidity `42..47`) otherwise,
so the new temperature lies in `21.2..22.0` exactly when `9 ≤ hours < 18`.  In
particular `hours = 9` gives a temperature in `[21.2, 22.0]`, `hours = 8.999`
one in `[22.8, 23.2]`, and `hours = 18` the AC-off bounds. -/
theorem officeAC_boundary (rnd : Nat → Nat) (hours dt : α) (s : DHTSim α) (k : Nat) :
    ((9 ≤ hours ∧ hours < 18) →
      DHTSim.updateOfficeAC rnd hours dt s k =
        ({ s with
            temperature := (boundedRandomWalkDT rnd s.temperature 21.2 22.0 0.03 dt k).1,
            humidity := (boundedRandomWalkDT rnd s.humidity 37 41 0.08 dt (k + 1)).1 },
          k + 2)) ∧
    (¬ (9 ≤ hours ∧ hours < 18) →
      DHTSim.updateOfficeAC rnd hours dt s k =
        ({ s with
            temperature := (boundedRandomWalkDT rnd s.temperature 22.8 23.2 0.03 dt k).1,
            humidity := (boundedRandomWalkDT rnd s.humidity 42 47 0.08 dt (k + 1)).1 },
          k + 2)) ∧
    ((21.2 ≤ DHTSim.read (DHTSim.updateOfficeAC rnd hours dt s k).1 ∧
        DHTSim.read (DHTSim.updateOfficeAC rnd hours dt s k).1 ≤ 22.0) ↔
      (9 ≤ hours ∧ hours < 18)) ∧
    (21.2 ≤ DHTSim.read (DHTSim.updateOfficeAC rnd 9 dt s k).1 ∧
      DHTSim.read (DHTSim.updateOfficeAC rnd 9 dt s k).1 ≤ 22.0) ∧
    (22.8 ≤ DHTSim.read (DHTSim.updateOfficeAC rnd 8.999 dt s k).1 ∧
      DHTSim.read (DHTSim.updateOfficeAC rnd 8.999 dt s k).1 ≤ 23.2) ∧
    (22.8 ≤ DHTSim.read (DHTSim.updateOfficeAC rnd 18 dt s k).1 ∧
      DHTSim.read (DHTSim.updateOfficeAC rnd 18 dt s k).1 ≤ 23.2 ∧
      42 ≤ DHTSim.readHumidity (DHTSim.updateOfficeAC rnd 18 dt s k).1 ∧
      DHTSim.readHumidity (DHTSim.updateOfficeAC rnd 18 dt s k).1 ≤ 47) := by
  have hOn : ∀ hrs : α, (9 ≤ hrs ∧ hrs < 18) →
      21.2 ≤ DHTSim.read (DHTSim.updateOfficeAC rnd hrs dt s k).1 ∧
        DHTSim.read (DHTSim.updateOfficeAC rnd hrs dt s k).1 ≤ 22.0 := by
    intro hrs h
    rw [DHTSim.updateOfficeAC_on rnd hrs dt s k h]
    exact boundedRandomWalkDT_mem rnd s.temperature 21.2 22.0 0.03 dt k (by norm_num)
  have hOff : ∀ hrs : α, ¬ (9 ≤ hrs ∧ hrs < 18) →
      (22.8 ≤ DHTSim.read (DHTSim.updateOfficeAC rnd hrs dt s k).1 ∧
        DHTSim.read (DHTSim.updateOfficeAC rnd hrs dt s k).1 ≤ 23.2) ∧
      (42 ≤ DHTSim.readHumidity (DHTSim.updateOfficeAC rnd hrs dt s k).1 ∧
        DHTSim.readHumidity (DHTSim.updateOfficeAC rnd hrs dt s k).1 ≤ 47) := by
    intro hrs h
    rw [DHTSim.updateOfficeAC_off rnd hrs dt s k h]
    exact ⟨boundedRandomWalkDT_mem rnd s.temperature 22.8 23.2 0.03 dt k (by norm_num),
      boundedRandomWalkDT_mem rnd s.humidity 42 47 0.08 dt (k + 1) (by norm_num)⟩
  refine ⟨DHTSim.updateOfficeAC_on rnd hours dt s k, DHTSim.updateOfficeAC_off rnd hours dt s k,
    ⟨fun h => ?_, hOn hours⟩, hOn 9 (by norm_num), (hOff 8.999 (by norm_num)).1, ?_⟩
  · by_contra hc
    have h1 := (hOff hours hc).1.1
    have h2 := h.2
    have : (22.0 : α) < 22.8 := by norm_num
    exact absurd (lt_of_lt_of_le this h1) (not_lt.mpr h2)
  · have h := hOff (18 : α) (by norm_num)
    exact ⟨h.1.1, h.1.2, h.2.1, h.2.2⟩

theorem officeAC_boundary_witness :
    (21.2 : ℝ) ≤ DHTSim.read (DHTSim.updateOfficeAC (fun _ => 5000) 9 1
        (DHTSim.defaults .OfficeAC 0) 0).1 ∧
      (22.8 : ℝ) ≤ DHTSim.read (DHTSim.updateOfficeAC (fun _ => 5000) 8.999 1
        (DHTSim.defaults .OfficeAC 0) 0).1 :=
  ⟨(officeAC_boundary (fun _ => 5000) (9 : ℝ) 1 (DHTSim.defaults .OfficeAC 0) 0).2.2.2.1.1,
    (officeAC_boundary (fun _ => 5000) (9 : ℝ) 1 (DHTSim.defaults .OfficeAC 0) 0).2.2.2.2.1.1⟩

/-- C10 (scenario seeding).  For raw draws in `0..9999`, `DHTSim(Greenhouse)`
starts with a temperature in `[27, 32]` and a humidity in `[75, 95]`; and
`LightSim(OutdoorSunny)` starts with lux exactly `2000`, its constructor making
no draw at all. -/
theorem scenario_seeding (rnd : Nat → Nat) (hrnd : ∀ i, rnd i < 10000) (now k : Nat) :
    ((27 : α) ≤ DHTSim.read (DHTSim.mkScenario rnd .Greenhouse now k).1 ∧
      DHTSim.read (DHTSim.mkScenario rnd .Greenhouse now k).1 ≤ (32 : α)) ∧
    ((75 : α) ≤ DHTSim.readHumidity (DHTSim.mkScenario rnd .Greenhouse now k).1 ∧
      DHTSim.readHumidity (DHTSim.mkScenario rnd .Greenhouse now k).1 ≤ (95 : α)) ∧
    LightSim.read (LightSim.mkScenario .OutdoorSunny now : LightSim α) = 2000 :=
  ⟨randomFloat_mem rnd 27 32 k (by norm_num) (hrnd k),
    randomFloat_mem rnd 75 95 (k + 1) (by norm_num) (hrnd (k + 1)), rfl⟩

theorem scenario_seeding_witness :
    (∀ i, (fun _ : Nat => 9999) i < 10000) ∧
      (27 : ℝ) ≤ DHTSim.read (DHTSim.mkScenario (fun _ => 9999) .Greenhouse 0 0).1 ∧
      DHTSim.read (DHTSim.mkScenario (fun _ => 9999) .Greenhouse 0 0).1 ≤ (32 : ℝ) :=
  ⟨fun _ => by norm_num, (scenario_seeding (fun _ => 9999) (fun _ => by norm_num) 0 0).1⟩

end Scenarios

/-! ## The uniform draw and the bounded random walk -/

section Walk

variable {α : Type} [LinearOrderedField α]

theorem draw_unit (rnd : Nat → Nat) (k : Nat) (hr : rnd k < 10000) :
    (0 : α) ≤ (rnd k : α) / 10000 ∧ (rnd k : α) / 10000 < 1 := by
  refine ⟨by positivity, ?_⟩
  rw [div_lt_one (by norm_num)]
  exact_mod_cast hr

theorem walk_eq_clamp (rnd : Nat → Nat) (current minV maxV rate dt : α) (k : Nat)
    (h : minV ≤ maxV) :
    (boundedRandomWalkDT rnd current minV maxV rate dt k).1 =
      clamp (current + (randomFloat rnd (-(rate * dt)) (rate * dt) k).1) minV maxV := by
  simp only [boundedRandomWalkDT, clamp]
  split_ifs with h1 h2 h3
  · exact absurd h (not_le.mpr h2)
  · rfl
  · rfl
  · rfl

theorem step_abs_le (rnd : Nat → Nat) (step : α) (k : Nat) (hs : 0 ≤ step)
    (hr : rnd k < 10000) :
    |(randomFloat rnd (-step) step k).1| ≤ step := by
  obtain ⟨h1, h2⟩ := randomFloat_mem rnd (-step) step k (by linarith) hr
  exact abs_le.mpr ⟨h1, h2⟩

theorem randomFloat_mem_Ico (rnd : Nat → Nat) (a b : α) (k : Nat) (hr : rnd k < 10000)
    (hab : a < b) : a ≤ (randomFloat rnd a b k).1 ∧ (randomFloat rnd a b k).1 < b := by
  obtain ⟨h0, h1⟩ := draw_unit (α := α) rnd k hr
  have hba : 0 < b - a := sub_pos.mpr hab
  simp only [randomFloat]
  constructor
  · nlinarith [mul_nonneg hba.le h0]
  · nlinarith [mul_lt_mul_of_pos_left h1 hba]

/-- C11 (uniform draw range).  For a raw draw `r` in `0..9999`,
`randomFloat(a, b)` is `a + (b - a) * r / 10000` and consumes one draw; it lies
in `[a, b)` when `a < b` (the upper endpoint is never returned) and is `a` when
`a = b`. -/
theorem randomFloat_range (rnd : Nat → Nat) (a b : α) (k : Nat) (hr : rnd k < 10000) :
    randomFloat rnd a b k = (a + (b - a) * (rnd k : α) / 10000, k + 1) ∧
    (a < b → a ≤ (randomFloat rnd a b k).1 ∧ (randomFloat rnd a b k).1 < b) ∧
    (a = b → (randomFloat rnd a b k).1 = a) := by
  refine ⟨?_, randomFloat_mem_Ico rnd a b k hr, ?_⟩
  · simp only [randomFloat, mul_div_assoc]
  · rintro rfl
    simp [randomFloat]

theorem randomFloat_range_witness :
    (fun _ : Nat => 9999) 0 < 10000 ∧
      (randomFloat (fun _ => 9999) (2 : ℝ) 5 0).1 < 5 :=
  ⟨by norm_num,
    ((randomFloat_range (fun _ => 9999) (2 : ℝ) 5 0 (by norm_num)).2.1 (by norm_num)).2⟩

/-- C12 (bounded random walk step).  For `min ≤ max`, `ratePerSec ≥ 0`,
`dt ≥ 0` and a raw draw in `0..9999`, `boundedRandomWalkDT` returns
`clamp(current + delta, min, max)` where `delta`, the draw
`randomFloat(-ratePerSec * dt, ratePerSec * dt)`, satisfies
`|delta| ≤ ratePerSec * dt`; the result lies in `[min, max]`. -/
theorem boundedRandomWalkDT_step (rnd : Nat → Nat) (current minV maxV rate dt : α) (k : Nat)
    (hmm : minV ≤ maxV) (hrate : 0 ≤ rate) (hdt : 0 ≤ dt) (hr : rnd k < 10000) :
    |(randomFloat rnd (-(rate * dt)) (rate * dt) k).1| ≤ rate * dt ∧
    (boundedRandomWalkDT rnd current minV maxV rate dt k).1 =
      clamp (current + (randomFloat rnd (-(rate * dt)) (rate * dt) k).1) minV maxV ∧
    minV ≤ (boundedRandomWalkDT rnd current minV maxV rate dt k).1 ∧
    (boundedRandomWalkDT rnd current minV maxV rate dt k).1 ≤ maxV :=
  ⟨step_abs_le rnd (rate * dt) k (mul_nonneg hrate hdt) hr,
    walk_eq_clamp rnd current minV maxV rate dt k hmm,
    boundedRandomWalkDT_mem rnd current minV maxV rate dt k hmm⟩

theorem boundedRandomWalkDT_step_witness :
    (21.2 : ℝ) ≤ 22.0 ∧ (0 : ℝ) ≤ 0.03 ∧ (0 : ℝ) ≤ 1 ∧ (fun _ : Nat => 9999) 0 < 10000 ∧
      |(randomFloat (fun _ => 9999) (-((0.03 : ℝ) * 1)) (0.03 * 1) 0).1| ≤ 0.03 * 1 ∧
      (boundedRandomWalkDT (fun _ => 9999) (21.5 : ℝ) 21.2 22.0 0.03 1 0).1 ≤ 22.0 :=
  ⟨by norm_num, by norm_num, by norm_num, by norm_num,
    (boundedRandomWalkDT_step (fun _ => 9999) (21.5 : ℝ) 21.2 22.0 0.03 1 0 (by norm_num)
      (by norm_num) (by norm_num) (by norm_num)).1,
    (boundedRandomWalkDT_step (fun _ => 9999) (21.5 : ℝ) 21.2 22.0 0.03 1 0 (by norm_num)
      (by norm_num) (by norm_num) (by norm_num)).2.2.2⟩

end Walk

/-! ## Manual mode and the curve-driven light scenarios -/

section Composition

variable {α : Type} [LinearOrderedField α]

theorem randomFloat_snd (rnd : Nat → Nat) (a b : α) (k : Nat) :
    (randomFloat rnd a b k).2 = k + 1 := rfl

theorem gaussianNoise_snd (m : Libm α) (rnd : Nat → Nat) (std : α) (k : Nat) :
    (gaussianNoise m rnd std k).2 = k + 2 := rfl

/-- C13 (manual-mode composition).  For `dt > 0`, the value after
`updateManual` is `clamp(v + d + g + c, min, max)`: `v` the previous value,
`d` the drift draw `randomFloat(-rate * dt, rate * dt)`, `g` the sample
`gaussianNoise(noiseStd * dt)`, and `c` the daily term
`amplitude * sin(2 * PI * (simulatedHour / 24 + dailyPhase)) * dt` when
`amplitude > 0` and `0` otherwise; the clamp comes last.  This holds for the
lux of `LightSim` and for the temperature and the humidity of `DHTSim`.  For a
positive rate and a raw draw in `0..9999` the drift draw lies in
`[-rate * dt, rate * dt)`. -/
theorem manual_composition (m : Libm α) (rnd : Nat → Nat) (dt : α) (k : Nat) (hdt : 0 < dt) :
    (∀ (s : LightSim α) (hours : α),
      (LightSim.updateManual m rnd hours dt s k).1.lux =
        clamp (s.lux + (randomFloat rnd (-(s.driftPerSec * dt)) (s.driftPerSec * dt) k).1
          + (gaussianNoise m rnd (s.noiseStd * dt) (k + 1)).1
          + (if s.dailyAmp > 0
              then s.dailyAmp * m.sin (2 * m.PI * (hours / 24 + s.dailyPhase)) * dt else 0))
          s.luxMin s.luxMax) ∧
    (∀ s : DHTSim α,
      (DHTSim.updateManual m rnd dt s k).1.temperature =
        clamp (s.temperature + (randomFloat rnd (-(s.tempStep * dt)) (s.tempStep * dt) k).1
          + (gaussianNoise m rnd (s.tempNoiseStd * dt) (k + 2)).1
          + (if s.tempDailyAmp > 0
              then s.tempDailyAmp * m.sin (2 * m.PI * (s.simulatedHour / 24 + s.dailyPhase)) * dt
              else 0))
          s.tMin s.tMax ∧
      (DHTSim.updateManual m rnd dt s k).1.humidity =
        clamp (s.humidity + (randomFloat rnd (-(s.humStep * dt)) (s.humStep * dt) (k + 1)).1
          + (gaussianNoise m rnd (s.humNoiseStd * dt) (k + 4)).1
          + (if s.humDailyAmp > 0
              then s.humDailyAmp * m.sin (2 * m.PI * (s.simulatedHour / 24 + s.dailyPhase)) * dt
              else 0))
          s.hMin s.hMax) ∧
    (∀ (rate : α) (j : Nat), 0 < rate → rnd j < 10000 →
      -(rate * dt) ≤ (randomFloat rnd (-(rate * dt)) (rate * dt) j).1 ∧
        (randomFloat rnd (-(rate * dt)) (rate * dt) j).1 < rate * dt) := by
  refine ⟨?_, ?_, ?_⟩
  · intro s hours
    simp only [LightSim.updateManual, randomFloat_snd, neg_mul]
    split_ifs with h
    · rfl
    · rw [add_zero]
  · intro s
    simp only [DHTSim.updateManual, randomFloat_snd, gaussianNoise_snd]
    constructor
    · split_ifs with h
      · rfl
      · rw [add_zero]
    · split_ifs with h
      · rfl
      · rw [add_zero]
  · intro rate j hrate hj
    have hpos : 0 < rate * dt := mul_pos hrate hdt
    exact randomFloat_mem_Ico rnd (-(rate * dt)) (rate * dt) j hj (by linarith)

theorem manual_composition_witness :
    (0 : ℝ) < 1 ∧ (fun _ : Nat => 0) 0 < 10000 ∧
      (randomFloat (fun _ => 0) (-((5 : ℝ) * 1)) (5 * 1) 0).1 < 5 * 1 :=
  ⟨by norm_num, by norm_num,
    ((manual_composition realLibm (fun _ => 0) (1 : ℝ) 0 (by norm_num)).2.2 5 0 (by norm_num)
      (by norm_num)).2⟩

theorem floor_ceil_eq_clamp (x peak : α) (hp : 0 ≤ peak) :
    (if (if x < 0 then 0 else x) > peak then peak else (if x < 0 then 0 else x)) =
      clamp x 0 peak := by
  unfold clamp
  split_ifs with h1 h2 h3
  · exact absurd hp (not_le.mpr h2)
  · rfl
  · rfl
  · rfl

/-- C15 (curve-driven scenarios are memoryless).  For a `LightSim` in
OutdoorSunny or Greenhouse and a clock reading with positive elapsed time, the
lux after `update()` is the daylight curve at the post-advance hour plus noise,
clamped: `clamp(daylightCurve(hour, 100000) + gaussianNoise(100 * dt), 0, 100000)`
for OutdoorSunny and
`clamp(daylightCurve(hour, 30000) + gaussianNoise(150 * dt), luxMin, luxMax)` for
Greenhouse.  It does not depend on the previous lux: a state that differs only
in `lux` gives the same result. -/
theorem curve_scenarios_memoryless (m : Libm α) (w : Nat) (rnd : Nat → Nat) (now : Nat)
    (s : LightSim α) (k : Nat) (hdt : 0 < millisDiff w now s.lastUpdate) :
    (s.scenario = .OutdoorSunny →
      LightSim.read (LightSim.update m w rnd now s k).1 =
        clamp (daylightCurve m (LightSim.update m w rnd now s k).1.simulatedHour 100000
          + (gaussianNoise m rnd (100 * ((millisDiff w now s.lastUpdate : α) / 1000)) k).1)
          0 100000) ∧
    (s.scenario = .Greenhouse →
      LightSim.read (LightSim.update m w rnd now s k).1 =
        clamp (daylightCurve m (LightSim.update m w rnd now s k).1.simulatedHour 30000
          + (gaussianNoise m rnd (150 * ((millisDiff w now s.lastUpdate : α) / 1000)) k).1)
          s.luxMin s.luxMax) ∧
    ((s.scenario = .OutdoorSunny ∨ s.scenario = .Greenhouse) →
      ∀ v : α, LightSim.read (LightSim.update m w rnd now { s with lux := v } k).1 =
        LightSim.read (LightSim.update m w rnd now s k).1) := by
  have hpos := DHTSim.dt_pos (α := α) w now s.lastUpdate hdt
  obtain ⟨sc, lux, hr, lu, lo, hi, dr, ns, da, dp, ts⟩ := s
  refine ⟨?_, ?_, ?_⟩
  · rintro rfl
    simp only [LightSim.update, hpos, ↓reduceIte, LightSim.read, LightSim.updateOutdoorSunny]
    exact floor_ceil_eq_clamp _ _ (by norm_num)
  · rintro rfl
    simp only [LightSim.update, hpos, ↓reduceIte, LightSim.read, LightSim.updateGreenhouse]
  · rintro (rfl | rfl) v
    · simp only [LightSim.update, hpos, ↓reduceIte, LightSim.read, LightSim.updateOutdoorSunny]
    · simp only [LightSim.update, hpos, ↓reduceIte, LightSim.read, LightSim.updateGreenhouse]

theorem curve_scenarios_memoryless_witness :
    0 < millisDiff 32 1000 (LightSim.mkScenario .Greenhouse 0 : LightSim ℝ).lastUpdate ∧
      LightSim.read (LightSim.update realLibm 32 (fun _ => 0) 1000
        { (LightSim.mkScenario .Greenhouse 0 : LightSim ℝ) with lux := 2000 } 0).1 =
      LightSim.read (LightSim.update realLibm 32 (fun _ => 0) 1000
        (LightSim.mkScenario .Greenhouse 0 : LightSim ℝ) 0).1 :=
  ⟨by decide,
    (curve_scenarios_memoryless realLibm 32 (fun _ => 0) 1000
      (LightSim.mkScenario .Greenhouse 0) 0 (by decide)).2.2 (Or.inr rfl) 2000⟩

theorem light_update_cloudy (m : Libm α) (w : Nat) (rnd : Nat → Nat) (now : Nat)
    (s : LightSim α) (k : Nat) (hsc : s.scenario = .OutdoorCloudy)
    (hdt : 0 < millisDiff w now s.lastUpdate) :
    LightSim.update m w rnd now s k =
      ({ s with
          lastUpdate := now,
          simulatedHour := (LightSim.update m w rnd now s k).1.simulatedHour,
          lux := clamp (daylightCurve m (LightSim.update m w rnd now s k).1.simulatedHour 25000
              * (randomFloat rnd 0.4 0.8 k).1
            + (gaussianNoise m rnd (200 * ((millisDiff w now s.lastUpdate : α) / 1000))
                (k + 1)).1) 0 25000 },
        k + 3) := by
  have hpos := DHTSim.dt_pos (α := α) w now s.lastUpdate hdt
  obtain ⟨sc, lux, hr, lu, lo, hi, dr, ns, da, dp, ts⟩ := s
  subst hsc
  simp only [LightSim.update, hpos, ↓reduceIte, LightSim.updateOutdoorCloudy,
    floor_ceil_eq_clamp _ (25000 : α) (by norm_num), randomFloat_snd, gaussianNoise_snd]

theorem clamp_le_of_le (x a b c : α) (hx : x ≤ c) (ha : a ≤ c) : clamp x a b ≤ c := by
  unfold clamp
  split_ifs with h1 h2
  · exact ha
  · exact le_trans h2.le hx
  · exact hx

theorem daylightCurve_real_le (h P : ℝ) (hP : 0 ≤ P) : daylightCurve realLibm h P ≤ P := by
  have hhi := Real.sin_le_one (2 * Real.pi * (h / 24) - Real.pi / 2)
  simp only [daylightCurve, realLibm]
  nlinarith

theorem gaussianNoise_real_le (std : ℝ) (k : Nat) (hstd : 0 ≤ std) :
    (gaussianNoise realLibm (fun _ => 0) std k).1 ≤ std * 142 := by
  have hu : ∀ j, (randomFloat (fun _ => 0) (0.0001 : ℝ) 1 j).1 = 0.0001 := by
    intro j
    simp [randomFloat]
  have hlog : -9999 ≤ Real.log (0.0001 : ℝ) := by
    have h1 := Real.log_le_sub_one_of_pos (show (0 : ℝ) < 10000 by norm_num)
    have h2 : (0.0001 : ℝ) = (10000 : ℝ)⁻¹ := by norm_num
    rw [h2, Real.log_inv]
    linarith
  have hsqrt : Real.sqrt (-2 * Real.log (0.0001 : ℝ)) ≤ 142 := by
    rw [Real.sqrt_le_iff]
    constructor
    · norm_num
    · nlinarith
  have hs0 : 0 ≤ Real.sqrt (-2 * Real.log (0.0001 : ℝ)) := Real.sqrt_nonneg _
  have hcos := Real.cos_le_one (2 * Real.pi * (0.0001 : ℝ))
  show std * Real.sqrt (-2 * Real.log (randomFloat (fun _ => 0) (0.0001 : ℝ) 1 k).1) *
    Real.cos (2 * Real.pi * (randomFloat (fun _ => 0) (0.0001 : ℝ) 1 _).1) ≤ std * 142
  rw [hu, hu]
  have h1 : std * Real.sqrt (-2 * Real.log (0.0001 : ℝ)) * Real.cos (2 * Real.pi * 0.0001)
      ≤ std * Real.sqrt (-2 * Real.log (0.0001 : ℝ)) * 1 :=
    mul_le_mul_of_nonneg_left hcos (mul_nonneg hstd hs0)
  have h2 : std * Real.sqrt (-2 * Real.log (0.0001 : ℝ)) ≤ std * 142 :=
    mul_le_mul_of_nonneg_left hsqrt hstd
  linarith

/-- C16, refuted as stated: an OutdoorCloudy `LightSim` whose previous lux is
`25000` and the one the constructor builds (previous lux `1500`) read the same
lux after an update one millisecond later (all raw draws `0`), and that lux is
at most `10029`: it is not the previous value plus a small step, it is more
than `14970` lux away from `25000` after `dt = 0.001`. -/
theorem outdoorCloudy_not_a_walk :
    LightSim.read (LightSim.update realLibm 32 (fun _ => 0) 1
        { (LightSim.mkScenario .OutdoorCloudy 0 : LightSim ℝ) with lux := 25000 } 0).1 =
      LightSim.read (LightSim.update realLibm 32 (fun _ => 0) 1
        (LightSim.mkScenario .OutdoorCloudy 0 : LightSim ℝ) 0).1 ∧
    LightSim.read (LightSim.update realLibm 32 (fun _ => 0) 1
        { (LightSim.mkScenario .OutdoorCloudy 0 : LightSim ℝ) with lux := 25000 } 0).1
      ≤ 10029 := by
  have e1 := light_update_cloudy realLibm 32 (fun _ => 0) 1
    { (LightSim.mkScenario .OutdoorCloudy 0 : LightSim ℝ) with lux := 25000 } 0 rfl (by decide)
  have e2 := light_update_cloudy realLibm 32 (fun _ => 0) 1
    (LightSim.mkScenario .OutdoorCloudy 0 : LightSim ℝ) 0 rfl (by decide)
  have hh : (LightSim.update realLibm 32 (fun _ => 0) 1
        { (LightSim.mkScenario .OutdoorCloudy 0 : LightSim ℝ) with lux := 25000 } 0).1.simulatedHour
      = (LightSim.update realLibm 32 (fun _ => 0) 1
        (LightSim.mkScenario .OutdoorCloudy 0 : LightSim ℝ) 0).1.simulatedHour := by
    rw [light_update_simulatedHour _ _ _ _ _ _ (DHTSim.dt_pos 32 1 0 (by decide)),
      light_update_simulatedHour _ _ _ _ _ _ (DHTSim.dt_pos 32 1 0 (by decide))]
  constructor
  · rw [e1, e2]
    simp only [LightSim.read]
    rw [hh]
  · rw [e1]
    simp only [LightSim.read]
    apply clamp_le_of_le _ _ _ _ _ (by norm_num)
    have hcf : (randomFloat (fun _ => 0) (0.4 : ℝ) 0.8 0).1 = 0.4 := by simp [randomFloat]
    have hn := gaussianNoise_real_le
      (200 * (((millisDiff 32 1 (LightSim.mkScenario .OutdoorCloudy 0 : LightSim ℝ).lastUpdate
        : ℕ) : ℝ) / 1000)) (0 + 1) (by positivity)
    have hm : ((millisDiff 32 1 (LightSim.mkScenario .OutdoorCloudy 0 : LightSim ℝ).lastUpdate
        : ℕ) : ℝ) = 1 := by
      have : millisDiff 32 1 (LightSim.mkScenario .OutdoorCloudy 0 : LightSim ℝ).lastUpdate = 1 := by
        decide
      rw [this]
      norm_num
    rw [hm] at hn
    rw [hcf, hm]
    refine le_trans (add_le_add (mul_le_mul_of_nonneg_right
      (daylightCurve_real_le _ 25000 (by norm_num)) (by norm_num)) hn) ?_
    norm_num

/-- C16, amended.  For a `LightSim` in OutdoorCloudy, `update()` with `dt > 0`
does not walk the previous lux: it sets lux to
`daylightCurve(simulatedHour, 25000) * cloudFactor + gaussianNoise(200 * dt)`,
with `cloudFactor` the draw `randomFloat(0.4, 0.8)` and `simulatedHour` the
post-advance hour, clamped into the fixed bounds `0..25000`.  The new value
does not depend on the previous one: a state that differs only in `lux` gives
the same result. -/
theorem outdoorCloudy_direct (m : Libm α) (w : Nat) (rnd : Nat → Nat) (now : Nat)
    (s : LightSim α) (k : Nat) (hsc : s.scenario = .OutdoorCloudy)
    (hdt : 0 < millisDiff w now s.lastUpdate) :
    LightSim.read (LightSim.update m w rnd now s k).1 =
      clamp (daylightCurve m (LightSim.update m w rnd now s k).1.simulatedHour 25000
          * (randomFloat rnd 0.4 0.8 k).1
        + (gaussianNoise m rnd (200 * ((millisDiff w now s.lastUpdate : α) / 1000)) (k + 1)).1)
        0 25000 ∧
    (∀ v : α, LightSim.read (LightSim.update m w rnd now { s with lux := v } k).1 =
      LightSim.read (LightSim.update m w rnd now s k).1) ∧
    0 ≤ LightSim.read (LightSim.update m w rnd now s k).1 ∧
    LightSim.read (LightSim.update m w rnd now s k).1 ≤ 25000 := by
  have hpos := DHTSim.dt_pos (α := α) w now s.lastUpdate hdt
  have e : LightSim.read (LightSim.update m w rnd now s k).1 =
      clamp (daylightCurve m (LightSim.update m w rnd now s k).1.simulatedHour 25000
          * (randomFloat rnd 0.4 0.8 k).1
        + (gaussianNoise m rnd (200 * ((millisDiff w now s.lastUpdate : α) / 1000)) (k + 1)).1)
        0 25000 := by
    conv_lhs => rw [light_update_cloudy m w rnd now s k hsc hdt]
    rfl
  refine ⟨e, ?_, ?_, ?_⟩
  · intro v
    obtain ⟨sc, lux, hr, lu, lo, hi, dr, ns, da, dp, ts⟩ := s
    subst hsc
    simp only [LightSim.update, hpos, ↓reduceIte, LightSim.read, LightSim.updateOutdoorCloudy]
  · rw [e]
    exact (clamp_mem _ 0 25000 (by norm_num)).1
  · rw [e]
    exact (clamp_mem _ 0 25000 (by norm_num)).2

theorem outdoorCloudy_direct_witness :
    (LightSim.mkScenario .OutdoorCloudy 0 : LightSim ℝ).scenario = .OutdoorCloudy ∧
      0 < millisDiff 32 1000 (LightSim.mkScenario .OutdoorCloudy 0 : LightSim ℝ).lastUpdate ∧
      LightSim.read (LightSim.update realLibm 32 (fun _ => 0) 1000
        (LightSim.mkScenario .OutdoorCloudy 0 : LightSim ℝ) 0).1 ≤ 25000 :=
  ⟨rfl, by decide,
    (outdoorCloudy_direct realLibm 32 (fun _ => 0) 1000 (LightSim.mkScenario .OutdoorCloudy 0) 0
      rfl (by decide)).2.2.2⟩

end Composition

/-! ## OfficeAC profile, the logarithm argument and the hour wrap -/

section Profile

variable {α : Type} [LinearOrderedField α]

theorem updateOfficeAC_args (rnd : Nat → Nat) (hours dt : α) (s : DHTSim α) (k : Nat) :
    DHTSim.updateOfficeAC rnd hours dt s k =
      ({ s with
          temperature := (boundedRandomWalkDT rnd s.temperature (DHTSim.officeACTemp hours).1
            (DHTSim.officeACTemp hours).2.1 (DHTSim.officeACTemp hours).2.2 dt k).1,
          humidity := (boundedRandomWalkDT rnd s.humidity (DHTSim.officeACHum hours).1
            (DHTSim.officeACHum hours).2.1 (DHTSim.officeACHum hours).2.2 dt (k + 1)).1 },
        k + 2) := rfl

theorem officeAC_args_on (hours : α) (h : 9 ≤ hours ∧ hours < 18) :
    DHTSim.officeACTemp hours = (21.2, 22.0, 0.03) ∧ DHTSim.officeACHum hours = (37, 41, 0.08) := by
  simp [DHTSim.officeACTemp, DHTSim.officeACHum, h.1, h.2]

theorem officeAC_args_off (hours : α) (h : ¬ (9 ≤ hours ∧ hours < 18)) :
    DHTSim.officeACTemp hours = (22.8, 23.2, 0.03) ∧ DHTSim.officeACHum hours = (42, 47, 0.08) := by
  have h' : (decide (hours ≥ 9) && decide (hours < 18)) = false := by
    simpa [not_and] using h
  simp [DHTSim.officeACTemp, DHTSim.officeACHum, h']

/-- C14, refuted as stated: at hour `12` (AC on) the temperature interval is
wider than at hour `20` (AC off), not narrower, and the drift rates passed to
the two walks are the same at both hours. -/
theorem officeAC_on_not_tighter :
    ((9 : ℝ) ≤ 12 ∧ (12 : ℝ) < 18) ∧ ¬ ((9 : ℝ) ≤ 20 ∧ (20 : ℝ) < 18) ∧
    (DHTSim.officeACTemp (20 : ℝ)).2.1 - (DHTSim.officeACTemp (20 : ℝ)).1
      < (DHTSim.officeACTemp (12 : ℝ)).2.1 - (DHTSim.officeACTemp (12 : ℝ)).1 ∧
    (DHTSim.officeACTemp (12 : ℝ)).2.2 = (DHTSim.officeACTemp (20 : ℝ)).2.2 ∧
    (DHTSim.officeACHum (12 : ℝ)).2.2 = (DHTSim.officeACHum (20 : ℝ)).2.2 := by
  have hon := officeAC_args_on (12 : ℝ) (by norm_num)
  have hoff := officeAC_args_off (20 : ℝ) (by norm_num)
  rw [hon.1, hon.2, hoff.1, hoff.2]
  norm_num

/-- C14, amended.  `updateOfficeAC` passes to its two walks the bounds selected
by the hour and the literal rates.  With AC on (`9 ≤ hour < 18`) the bounds are
lower than with AC off (temperature `21.2..22.0` against `22.8..23.2`, humidity
`37..41` against `42..47`); the humidity interval is narrower while on, the
temperature interval is wider, and the drift rates are the same in both states
(`0.03` for temperature, `0.08` for humidity). -/
theorem officeAC_profile (hOn hOff : α) (h1 : 9 ≤ hOn ∧ hOn < 18)
    (h2 : ¬ (9 ≤ hOff ∧ hOff < 18)) :
    (DHTSim.officeACTemp hOn = (21.2, 22.0, 0.03) ∧ DHTSim.officeACHum hOn = (37, 41, 0.08)) ∧
    (DHTSim.officeACTemp hOff = (22.8, 23.2, 0.03) ∧ DHTSim.officeACHum hOff = (42, 47, 0.08)) ∧
    (DHTSim.officeACHum hOn).2.1 - (DHTSim.officeACHum hOn).1
      < (DHTSim.officeACHum hOff).2.1 - (DHTSim.officeACHum hOff).1 ∧
    (DHTSim.officeACTemp hOff).2.1 - (DHTSim.officeACTemp hOff).1
      < (DHTSim.officeACTemp hOn).2.1 - (DHTSim.officeACTemp hOn).1 ∧
    (DHTSim.officeACTemp hOn).2.1 < (DHTSim.officeACTemp hOff).1 ∧
    (DHTSim.officeACHum hOn).2.1 < (DHTSim.officeACHum hOff).1 ∧
    (DHTSim.officeACTemp hOn).2.2 = (DHTSim.officeACTemp hOff).2.2 ∧
    (DHTSim.officeACHum hOn).2.2 = (DHTSim.officeACHum hOff).2.2 ∧
    (∀ (rnd : Nat → Nat) (hours dt : α) (s : DHTSim α) (k : Nat),
      DHTSim.updateOfficeAC rnd hours dt s k =
        ({ s with
            temperature := (boundedRandomWalkDT rnd s.temperature (DHTSim.officeACTemp hours).1
              (DHTSim.officeACTemp hours).2.1 (DHTSim.officeACTemp hours).2.2 dt k).1,
            humidity := (boundedRandomWalkDT rnd s.humidity (DHTSim.officeACHum hours).1
              (DHTSim.officeACHum hours).2.1 (DHTSim.officeACHum hours).2.2 dt (k + 1)).1 },
          k + 2)) := by
  have hon := officeAC_args_on hOn h1
  have hoff := officeAC_args_off hOff h2
  refine ⟨hon, hoff, ?_, ?_, ?_, ?_, ?_, ?_, updateOfficeAC_args⟩ <;>
    simp only [hon.1, hon.2, hoff.1, hoff.2] <;> norm_num

theorem officeAC_profile_witness :
    ((9 : ℝ) ≤ 12 ∧ (12 : ℝ) < 18) ∧ ¬ ((9 : ℝ) ≤ 20 ∧ (20 : ℝ) < 18) ∧
      (DHTSim.officeACHum (12 : ℝ)).2.1 - (DHTSim.officeACHum (12 : ℝ)).1
        < (DHTSim.officeACHum (20 : ℝ)).2.1 - (DHTSim.officeACHum (20 : ℝ)).1 :=
  ⟨by norm_num, by norm_num,
    (officeAC_profile (12 : ℝ) 20 (by norm_num) (by norm_num)).2.2.1⟩

/-- C17 (the logarithm argument is never zero).  For raw draws in `0..9999`,
the two uniform samples `u1`, `u2` of `gaussianNoise` lie in `(0, 1]`, so over
the reals `-2 * log(u1) ≥ 0`: the square root is taken of a non-negative number
(its square is `-2 * log(u1)`), and `gaussianNoise(std)` is
`std * sqrt(-2 * log(u1)) * cos(2 * PI * u2)` with these samples. -/
theorem gaussianNoise_log_arg (rnd : Nat → Nat) (hr : ∀ i, rnd i < 10000) (std : ℝ) (k : Nat) :
    (0 < (randomFloat rnd (0.0001 : ℝ) 1 k).1 ∧ (randomFloat rnd (0.0001 : ℝ) 1 k).1 ≤ 1) ∧
    (0 < (randomFloat rnd (0.0001 : ℝ) 1 (k + 1)).1 ∧
      (randomFloat rnd (0.0001 : ℝ) 1 (k + 1)).1 ≤ 1) ∧
    0 ≤ -2 * Real.log (randomFloat rnd (0.0001 : ℝ) 1 k).1 ∧
    Real.sqrt (-2 * Real.log (randomFloat rnd (0.0001 : ℝ) 1 k).1) ^ 2 =
      -2 * Real.log (randomFloat rnd (0.0001 : ℝ) 1 k).1 ∧
    gaussianNoise realLibm rnd std k =
      (std * Real.sqrt (-2 * Real.log (randomFloat rnd (0.0001 : ℝ) 1 k).1) *
        Real.cos (2 * Real.pi * (randomFloat rnd (0.0001 : ℝ) 1 (k + 1)).1), k + 2) := by
  have h1 := randomFloat_mem_Ico rnd (0.0001 : ℝ) 1 k (hr k) (by norm_num)
  have h2 := randomFloat_mem_Ico rnd (0.0001 : ℝ) 1 (k + 1) (hr (k + 1)) (by norm_num)
  have hu1 : 0 < (randomFloat rnd (0.0001 : ℝ) 1 k).1 := lt_of_lt_of_le (by norm_num) h1.1
  have hu2 : 0 < (randomFloat rnd (0.0001 : ℝ) 1 (k + 1)).1 :=
    lt_of_lt_of_le (by norm_num) h2.1
  have hlog : Real.log (randomFloat rnd (0.0001 : ℝ) 1 k).1 ≤ 0 :=
    Real.log_nonpos hu1.le h1.2.le
  have hnn : 0 ≤ -2 * Real.log (randomFloat rnd (0.0001 : ℝ) 1 k).1 := by linarith
  exact ⟨⟨hu1, h1.2.le⟩, ⟨hu2, h2.2.le⟩, hnn, Real.sq_sqrt hnn, rfl⟩

theorem gaussianNoise_log_arg_witness :
    (∀ i, (fun _ : Nat => 0) i < 10000) ∧
      0 < (randomFloat (fun _ => 0) (0.0001 : ℝ) 1 0).1 ∧
      0 ≤ -2 * Real.log (randomFloat (fun _ => 0) (0.0001 : ℝ) 1 0).1 :=
  ⟨fun _ => by norm_num,
    (gaussianNoise_log_arg (fun _ => 0) (fun _ => by norm_num) 1 0).1.1,
    (gaussianNoise_log_arg (fun _ => 0) (fun _ => by norm_num) 1 0).2.2.1⟩

end Profile

end SensorSim
